import Mathlib

/-!
Verification of the business-idea text-to-record pipeline.

Shallow embedding of the TypeScript sources of the `ai-business-idea-generator`
repository: the response formatter (`src/lib/formatters/businessIdeaFormatter.ts`),
the request validator (`src/lib/validators/generateIdeasValidator.ts`), the prompt
builder (`src/lib/ai/prompts/businessIdeaPrompt.ts`) and the HTTP route
(`src/app/api/generate-ideas/route.ts`).

Conventions of the embedding:
* JavaScript dynamic values that flow through the formatter are modelled by the
  inductive type `Json` (with an `undefined` constructor for `undefined`, which
  property access on missing keys produces).  JavaScript numbers are modelled as
  rationals (`ℚ`); the claims under verification never exercise float rounding.
* `Date.now()` / `new Date()` are modelled by an explicit `now : Nat` parameter.
* A TypeScript function that can throw is modelled with `Option`/`Except`;
  try/catch blocks become matches on those results.
* String handling (`trim`, `\s`, `parseInt`) follows the JavaScript semantics on
  the ASCII range; the Unicode-only extensions of `\s` (NBSP etc.) are outside
  every input exercised here and are noted where elided.
-/

/-- JavaScript whitespace (`\s`, `String.trim`), restricted to the ASCII range.
JS additionally treats some Unicode spaces as whitespace; no input in this
development contains them. -/
def jsWhite (c : Char) : Bool :=
  c = ' ' ∨ c = '\t' ∨ c = '\n' ∨ c = '\r' ∨ c = '\x0b' ∨ c = '\x0c'

/-- `String.prototype.trim`. -/
def jsTrim (s : String) : String :=
  String.mk (((s.toList.dropWhile jsWhite).reverse.dropWhile jsWhite).reverse)

/-- `s.substring(0, n)` (also `take` on characters). JS counts UTF-16 code
units; on the BMP inputs of this development the two notions agree. -/
def takeChars (s : String) : Nat → String :=
  fun n => String.mk (s.toList.take n)

/-- `parseInt(s, 10)`: skip whitespace, optional sign, then the longest digit
prefix; `NaN` (modelled `none`) if no digit follows. -/
def jsParseInt (s : String) : Option Int :=
  let cs := s.toList.dropWhile jsWhite
  let core := fun (sign : Int) (rest : List Char) =>
    let ds := rest.takeWhile Char.isDigit
    if ds.isEmpty then none
    else some (sign * (Int.ofNat (ds.foldl (fun a c => a * 10 + (c.toNat - '0'.toNat)) 0)))
  match cs with
  | '-' :: rest => core (-1) rest
  | '+' :: rest => core 1 rest
  | rest => core 1 rest

/-- `String.prototype.startsWith`. -/
def strStartsWith (s pre : String) : Bool := pre.toList.isPrefixOf s.toList

/-- `String.prototype.endsWith`. -/
def strEndsWith (s suf : String) : Bool := suf.toList.isSuffixOf s.toList

/-- `String.prototype.toLowerCase` (ASCII; the enum values compared with it
are ASCII). -/
def strToLower (s : String) : String := String.mk (s.toList.map Char.toLower)

/-- Dynamic JavaScript value as it flows through the formatter: the image of
`JSON.parse` plus `undefined`. Numbers are rationals. -/
inductive Json where
  | null : Json
  | undefined : Json
  | bool : Bool → Json
  | num : ℚ → Json
  | str : String → Json
  | arr : List Json → Json
  | obj : List (String × Json) → Json

/-- JavaScript truthiness: `undefined`, `null`, `false`, `0`, `""` are falsy;
every object and array is truthy. -/
def Json.truthy : Json → Bool
  | .null => false
  | .undefined => false
  | .bool b => b
  | .num q => q ≠ 0
  | .str s => s ≠ ""
  | .arr _ => true
  | .obj _ => true

/-- `a || b` on dynamic values. -/
def jsOr (a b : Json) : Json := if a.truthy then a else b

/-- Property read `base[key]` for a base that is not `null`/`undefined`:
objects yield the last binding of the key (`JSON.parse` keeps the last
duplicate), everything else (arrays under a non-index key, primitives) yields
`undefined`.  Call sites guard the `null`/`undefined` bases, where the read
would throw a `TypeError`. -/
def Json.field : Json → String → Json
  | .obj fields, k =>
      match fields.reverse.find? (fun p => p.1 = k) with
      | some p => p.2
      | none => .undefined
  | _, _ => .undefined

/-- `typeof v === "object"` (true for objects, arrays and `null`). -/
def Json.typeofObject : Json → Bool
  | .obj _ => true
  | .arr _ => true
  | .null => true
  | _ => false

def Json.isNum : Json → Bool
  | .num _ => true
  | _ => false

def Json.isStr : Json → Bool
  | .str _ => true
  | _ => false

/-! ## A model of `JSON.parse`

Recursive-descent parser for the JSON grammar (RFC 8259), the library function
the formatter calls.  Whitespace is the JSON set (space, tab, LF, CR).  Escape
`\uXXXX` maps through `Char.ofNat`; lone surrogate halves (which no claim
exercises) fall to the replacement `'\x00'` instead of an unpaired UTF-16 unit. -/

/-- JSON grammar whitespace. -/
def jsonWs (c : Char) : Bool := c = ' ' ∨ c = '\t' ∨ c = '\n' ∨ c = '\r'

def hexVal (c : Char) : Option Nat :=
  if '0' ≤ c ∧ c ≤ '9' then some (c.toNat - '0'.toNat)
  else if 'a' ≤ c ∧ c ≤ 'f' then some (c.toNat - 'a'.toNat + 10)
  else if 'A' ≤ c ∧ c ≤ 'F' then some (c.toNat - 'A'.toNat + 10)
  else none

/-- Body of a JSON string after the opening quote; returns the decoded string
and the input after the closing quote. Raw control characters are rejected. -/
def parseJsonStringBody (acc : List Char) (cs : List Char) : Option (String × List Char) :=
  match cs with
  | [] => none
  | '"' :: rest => some (String.mk acc.reverse, rest)
  | '\\' :: 'u' :: a :: b :: c :: d :: rest =>
      match hexVal a, hexVal b, hexVal c, hexVal d with
      | some x, some y, some z, some w =>
          parseJsonStringBody (Char.ofNat (((x * 16 + y) * 16 + z) * 16 + w) :: acc) rest
      | _, _, _, _ => none
  | '\\' :: e :: rest =>
      match e with
      | '"' => parseJsonStringBody ('"' :: acc) rest
      | '\\' => parseJsonStringBody ('\\' :: acc) rest
      | '/' => parseJsonStringBody ('/' :: acc) rest
      | 'b' => parseJsonStringBody ('\x08' :: acc) rest
      | 'f' => parseJsonStringBody ('\x0c' :: acc) rest
      | 'n' => parseJsonStringBody ('\n' :: acc) rest
      | 'r' => parseJsonStringBody ('\r' :: acc) rest
      | 't' => parseJsonStringBody ('\t' :: acc) rest
      | _ => none
  | c :: rest => if c.toNat < 0x20 then none else parseJsonStringBody (c :: acc) rest

def digitsToNat (ds : List Char) : Nat :=
  ds.foldl (fun a c => a * 10 + (c.toNat - '0'.toNat)) 0

/-- JSON number: `-? (0 | [1-9][0-9]*) (. [0-9]+)? ([eE][+-]?[0-9]+)?`. -/
def parseJsonNumber (cs : List Char) : Option (ℚ × List Char) :=
  let signed : Bool × List Char := match cs with | '-' :: r => (true, r) | _ => (false, cs)
  let intPart : Option (List Char × List Char) :=
    match signed.2 with
    | '0' :: r => some (['0'], r)
    | c :: r =>
        if '1' ≤ c ∧ c ≤ '9' then
          some (c :: r.takeWhile Char.isDigit, r.dropWhile Char.isDigit)
        else none
    | [] => none
  match intPart with
  | none => none
  | some (ids, rest1) =>
    let fracPart : Option (List Char × List Char) :=
      match rest1 with
      | '.' :: r =>
          let fs := r.takeWhile Char.isDigit
          if fs.isEmpty then none else some (fs, r.dropWhile Char.isDigit)
      | _ => some ([], rest1)
    match fracPart with
    | none => none
    | some (fds, rest2) =>
      let expPart : Option (Int × List Char) :=
        match rest2 with
        | 'e' :: r | 'E' :: r =>
            let signedE : Bool × List Char :=
              match r with
              | '-' :: r2 => (true, r2)
              | '+' :: r2 => (false, r2)
              | _ => (false, r)
            let es := signedE.2.takeWhile Char.isDigit
            if es.isEmpty then none
            else
              let e : Int := Int.ofNat (digitsToNat es)
              some (if signedE.1 then -e else e, signedE.2.dropWhile Char.isDigit)
        | _ => some (0, rest2)
      match expPart with
      | none => none
      | some (e, rest3) =>
        let m : Nat := digitsToNat (ids ++ fds)
        let shift : Int := e - (fds.length : Int)
        let value : ℚ :=
          if 0 ≤ shift then mkRat (Int.ofNat (m * 10 ^ shift.toNat)) 1
          else mkRat (Int.ofNat m) (10 ^ (-shift).toNat)
        some (if signed.1 then -value else value, rest3)

mutual

/-- One JSON value, leading whitespace allowed; returns the unconsumed input. -/
def parseJsonValue : Nat → List Char → Option (Json × List Char)
  | 0, _ => none
  | Nat.succ fuel, cs =>
    match cs.dropWhile jsonWs with
    | 'n' :: 'u' :: 'l' :: 'l' :: rest => some (.null, rest)
    | 't' :: 'r' :: 'u' :: 'e' :: rest => some (.bool true, rest)
    | 'f' :: 'a' :: 'l' :: 's' :: 'e' :: rest => some (.bool false, rest)
    | '"' :: rest =>
        match parseJsonStringBody [] rest with
        | some (s, rest2) => some (.str s, rest2)
        | none => none
    | '[' :: rest =>
        (match rest.dropWhile jsonWs with
         | ']' :: rest2 => some (.arr [], rest2)
         | _ => parseJsonElems fuel rest [])
    | '\x7b' :: rest =>
        (match rest.dropWhile jsonWs with
         | '\x7d' :: rest2 => some (.obj [], rest2)
         | _ => parseJsonMembers fuel rest [])
    | rest =>
        match parseJsonNumber rest with
        | some (q, rest2) => some (.num q, rest2)
        | none => none

/-- Elements of a non-empty array, after `[` or a `,`. -/
def parseJsonElems : Nat → List Char → List Json → Option (Json × List Char)
  | 0, _, _ => none
  | Nat.succ fuel, cs, acc =>
    match parseJsonValue fuel cs with
    | none => none
    | some (v, rest) =>
      match rest.dropWhile jsonWs with
      | ',' :: rest2 => parseJsonElems fuel rest2 (v :: acc)
      | ']' :: rest2 => some (.arr (v :: acc).reverse, rest2)
      | _ => none

/-- Members of a non-empty object, after the brace or a `,`. -/
def parseJsonMembers : Nat → List Char → List (String × Json) → Option (Json × List Char)
  | 0, _, _ => none
  | Nat.succ fuel, cs, acc =>
    match cs.dropWhile jsonWs with
    | '"' :: rest =>
      (match parseJsonStringBody [] rest with
       | none => none
       | some (k, rest2) =>
         match rest2.dropWhile jsonWs with
         | ':' :: rest3 =>
           (match parseJsonValue fuel rest3 with
            | none => none
            | some (v, rest4) =>
              match rest4.dropWhile jsonWs with
              | ',' :: rest5 => parseJsonMembers fuel rest5 ((k, v) :: acc)
              | '\x7d' :: rest5 => some (.obj ((k, v) :: acc).reverse, rest5)
              | _ => none)
         | _ => none)
    | _ => none

end

/-- `JSON.parse`: one value covering the whole text. `none` models the thrown
`SyntaxError`. The fuel is an upper bound on nesting plus element hops, both
below the character count. -/
def parseJsonText (s : String) : Option Json :=
  match parseJsonValue (2 * s.length + 8) s.toList with
  | some (v, rest) => if (rest.dropWhile jsonWs).isEmpty then some v else none
  | none => none

/-! ## Data model (`src/types/models`, `src/types/api`)

The string enums of `BusinessIdea.ts` and `UserProfile.ts`, and the record
shapes the formatter produces.  Record fields that TypeScript leaves loosely
typed at runtime (title, description, investment bounds, ...) are `Json`-typed,
since the source stores whatever truthy value the parsed element supplied. -/

inductive IdeaType where
  | PRODUCT | SERVICE | PLATFORM | MARKETPLACE | SAAS
  | ECOMMERCE | CONSULTING | CONTENT | OTHER
deriving DecidableEq, Repr

def IdeaType.toStr : IdeaType → String
  | .PRODUCT => "product"
  | .SERVICE => "service"
  | .PLATFORM => "platform"
  | .MARKETPLACE => "marketplace"
  | .SAAS => "saas"
  | .ECOMMERCE => "ecommerce"
  | .CONSULTING => "consulting"
  | .CONTENT => "content"
  | .OTHER => "other"

/-- `Object.values(IdeaType)`, in declaration order. -/
def IdeaType.values : List IdeaType :=
  [.PRODUCT, .SERVICE, .PLATFORM, .MARKETPLACE, .SAAS, .ECOMMERCE, .CONSULTING, .CONTENT, .OTHER]

inductive BusinessModel where
  | B2C | B2B | B2B2C | FREEMIUM | SUBSCRIPTION
  | MARKETPLACE | COMMISSION | ADVERTISING | LICENSING | HYBRID
deriving DecidableEq, Repr

def BusinessModel.toStr : BusinessModel → String
  | .B2C => "b2c"
  | .B2B => "b2b"
  | .B2B2C => "b2b2c"
  | .FREEMIUM => "freemium"
  | .SUBSCRIPTION => "subscription"
  | .MARKETPLACE => "marketplace"
  | .COMMISSION => "commission"
  | .ADVERTISING => "advertising"
  | .LICENSING => "licensing"
  | .HYBRID => "hybrid"

def BusinessModel.values : List BusinessModel :=
  [.B2C, .B2B, .B2B2C, .FREEMIUM, .SUBSCRIPTION, .MARKETPLACE, .COMMISSION,
   .ADVERTISING, .LICENSING, .HYBRID]

inductive RevenueType where
  | ONE_TIME_PAYMENT | RECURRING_SUBSCRIPTION | USAGE_BASED | COMMISSION
  | ADVERTISING | LICENSING | DATA_MONETIZATION | FRANCHISE
deriving DecidableEq, Repr

def RevenueType.toStr : RevenueType → String
  | .ONE_TIME_PAYMENT => "one_time_payment"
  | .RECURRING_SUBSCRIPTION => "recurring_subscription"
  | .USAGE_BASED => "usage_based"
  | .COMMISSION => "commission"
  | .ADVERTISING => "advertising"
  | .LICENSING => "licensing"
  | .DATA_MONETIZATION => "data_monetization"
  | .FRANCHISE => "franchise"

def RevenueType.values : List RevenueType :=
  [.ONE_TIME_PAYMENT, .RECURRING_SUBSCRIPTION, .USAGE_BASED, .COMMISSION,
   .ADVERTISING, .LICENSING, .DATA_MONETIZATION, .FRANCHISE]

inductive IdeaStatus where
  | DRAFT | GENERATED | REFINING | VALIDATED | PLANNING | ARCHIVED
deriving DecidableEq, Repr

/-- A revenue-stream entry on a produced record.  The estimated revenues are
stored exactly as supplied (`as number | undefined` is a no-op cast). -/
structure RevenueStream where
  type : RevenueType
  description : Json
  estimatedMonthlyRevenue : Json := .undefined
  estimatedAnnualRevenue : Json := .undefined

structure InvestmentRange where
  min : Json
  max : Json
  currency : Json
  timeframe : Json

structure RevenueProjection where
  year1 : Json
  year2 : Json
  year3 : Json
  year5 : Json
  currency : Json

/-- A produced `BusinessIdea` record.  `createdAt`/`updatedAt`/`id` take the
`now` parameter that models `Date.now()` / `new Date()`. -/
structure BusinessIdea where
  id : String
  userId : String
  title : Json
  description : Json
  problem : Json
  solution : Json
  targetMarket : Json
  businessModel : BusinessModel
  revenueStreams : List RevenueStream
  competitiveAdvantage : Json
  initialInvestment : Option InvestmentRange := none
  estimatedRevenue : Option RevenueProjection := none
  industry : Json
  tags : List String
  ideaType : IdeaType
  status : IdeaStatus
  createdAt : Nat
  updatedAt : Nat
  aiScore : Option ℚ := none

/-- `FormatOptions` of the formatter module. -/
structure FormatOptions where
  userId : Option String := none
  defaultIndustry : Option String := none
  defaultIdeaType : Option IdeaType := none
  defaultBusinessModel : Option BusinessModel := none
  defaultCurrency : Option String := none

/-- `opt || literal` where `opt` is an optional string: `undefined` and the
empty string are both falsy. -/
def jsOrStrD (o : Option String) (d : String) : String :=
  match o with
  | some s => if s = "" then d else s
  | none => d

/-! ## The response formatter (`businessIdeaFormatter.ts`) -/

/-- `parseEnum`: case-insensitive lookup of a string against an enum's value
set (`Object.values` order), else the fallback. -/
def parseEnum {α : Type} (enumValues : List α) (toVal : α → String) (value : Json) (fallback : α) : α :=
  match value with
  | .str s =>
      match enumValues.find? (fun v => strToLower (toVal v) = strToLower s) with
      | some v => v
      | none => fallback
  | _ => fallback

/-- `parseTags`. -/
def parseTags (data : Json) : List String :=
  match data with
  | .arr items => items.filterMap (fun t => match t with | .str s => some s | _ => none)
  | .str s => [s]
  | _ => []

/-- `parseScore`: numbers are clamped to `[0,100]`; strings go through
`parseInt(·, 10)` and are clamped when that is not `NaN`; all else is
`undefined`. -/
def parseScore (data : Json) : Option ℚ :=
  match data with
  | .num n => some (max 0 (min 100 n))
  | .str s =>
      match jsParseInt s with
      | some n => some (max 0 (min 100 (n : ℚ)))
      | none => none
  | _ => none

/-- The `revenueTypeMap` table of `createDefaultRevenueStream`; total, so the
source's `|| RevenueType.RECURRING_SUBSCRIPTION` fallback is unreachable. -/
def revenueTypeMap : BusinessModel → RevenueType
  | .SUBSCRIPTION => .RECURRING_SUBSCRIPTION
  | .MARKETPLACE => .COMMISSION
  | .ADVERTISING => .ADVERTISING
  | .LICENSING => .LICENSING
  | .COMMISSION => .COMMISSION
  | .FREEMIUM => .RECURRING_SUBSCRIPTION
  | .B2C => .ONE_TIME_PAYMENT
  | .B2B => .RECURRING_SUBSCRIPTION
  | .B2B2C => .RECURRING_SUBSCRIPTION
  | .HYBRID => .RECURRING_SUBSCRIPTION

def createDefaultRevenueStream (businessModel : BusinessModel) : RevenueStream :=
  { type := revenueTypeMap businessModel
    description := .str ("Primary " ++ businessModel.toStr ++ " revenue stream") }

/-- `parseRevenueStreams`: only array input yields entries, and only the
entries that are non-null objects (`typeof stream === "object"`, which arrays
also satisfy) survive. -/
def parseRevenueStreams (data : Json) (defaultCurrency : String) : List RevenueStream :=
  if !data.truthy then []
  else
    match data with
    | .arr items =>
        items.filterMap (fun stream =>
          match stream with
          | .obj _ | .arr _ =>
              some { type := parseEnum RevenueType.values RevenueType.toStr
                       (stream.field "type") .RECURRING_SUBSCRIPTION
                     description := jsOr (stream.field "description") (.str "Revenue stream")
                     estimatedMonthlyRevenue := stream.field "estimatedMonthlyRevenue"
                     estimatedAnnualRevenue := stream.field "estimatedAnnualRevenue" }
          | _ => none)
    | _ => []

/-- `parseInvestmentRange`: populated only when the source value is a truthy
`typeof object`; falsy bounds fall back to 10000/50000. -/
def parseInvestmentRange (data : Json) (defaultCurrency : String) : Option InvestmentRange :=
  if !data.truthy || !data.typeofObject then none
  else some
    { min := jsOr (data.field "min") (.num 10000)
      max := jsOr (data.field "max") (.num 50000)
      currency := jsOr (data.field "currency") (.str defaultCurrency)
      timeframe := jsOr (data.field "timeframe") (.str "3-6 months") }

/-- `parseRevenueProjection`. -/
def parseRevenueProjection (data : Json) (defaultCurrency : String) : Option RevenueProjection :=
  if !data.truthy || !data.typeofObject then none
  else some
    { year1 := data.field "year1"
      year2 := data.field "year2"
      year3 := data.field "year3"
      year5 := data.field "year5"
      currency := jsOr (data.field "currency") (.str defaultCurrency) }

/-- `parseIdeaFromData`, the field-reconciliation step for one JSON element.
Property access on a `null`/`undefined` element throws a `TypeError`, which the
function's own try/catch converts to `null` (here `none`); on every other
element no statement can throw. The title chain ends in the always-truthy
template literal, so the `if (!title) return null` guard never fires. -/
def parseIdeaFromData (data : Json) (index : Nat) (options : FormatOptions) (now : Nat) :
    Option BusinessIdea :=
  match data with
  | .null => none
  | .undefined => none
  | _ =>
    let title := jsOr (jsOr (jsOr (data.field "title") (data.field "name")) (data.field "heading"))
      (.str ("Business Idea " ++ toString (index + 1)))
    if !title.truthy then none
    else
      let description := jsOr (jsOr (data.field "description") (data.field "overview")) (.str "")
      let problem := jsOr (jsOr (data.field "problem") (data.field "problemStatement")) (.str "")
      let solution := jsOr (data.field "solution") (.str "")
      let targetMarket := jsOr (jsOr (data.field "targetMarket") (data.field "targetAudience"))
        (.str "General market")
      let industry := jsOr (data.field "industry")
        (.str (jsOrStrD options.defaultIndustry "Technology"))
      let ideaType := parseEnum IdeaType.values IdeaType.toStr
        (jsOr (data.field "ideaType") (data.field "type")) (options.defaultIdeaType.getD .SAAS)
      let businessModel := parseEnum BusinessModel.values BusinessModel.toStr
        (data.field "businessModel") (options.defaultBusinessModel.getD .SUBSCRIPTION)
      let revenueStreams := parseRevenueStreams (data.field "revenueStreams")
        (jsOrStrD options.defaultCurrency "USD")
      let initialInvestment := parseInvestmentRange (data.field "initialInvestment")
        (jsOrStrD options.defaultCurrency "USD")
      let estimatedRevenue := parseRevenueProjection (data.field "estimatedRevenue")
        (jsOrStrD options.defaultCurrency "USD")
      let tags := parseTags (jsOr (jsOr (data.field "tags") (data.field "categories")) industry)
      let aiScore := parseScore
        (jsOr (jsOr (data.field "aiScore") (data.field "score")) (data.field "qualityScore"))
      some
        { id := "idea-" ++ toString now ++ "-" ++ toString index
          userId := jsOrStrD options.userId "anonymous-user"
          title
          description := jsOr description (.str "Description not provided")
          problem := jsOr problem (.str "Problem statement not provided")
          solution := jsOr solution (.str "Solution not provided")
          targetMarket
          businessModel
          revenueStreams :=
            if revenueStreams.length > 0 then revenueStreams
            else [createDefaultRevenueStream businessModel]
          competitiveAdvantage := jsOr
            (jsOr (data.field "competitiveAdvantage") (data.field "differentiation"))
            (.str "Unique value proposition")
          initialInvestment
          estimatedRevenue
          industry
          tags
          ideaType
          status := .GENERATED
          createdAt := now
          updatedAt := now
          aiScore }

/-- Strip of a leading/trailing fenced code block in `tryParseAsJSON`:
`replace(/\s*` followed by three backticks and `$/, "")`. -/
def stripTrailingFence (t : String) : String :=
  if strEndsWith t "```" then String.mk ((t.toList.reverse.drop 3).dropWhile jsWhite).reverse
  else t

def stripCodeFence (t : String) : String :=
  if strStartsWith t "```json" then
    stripTrailingFence (String.mk ((t.toList.drop 7).dropWhile jsWhite))
  else if strStartsWith t "```" then
    stripTrailingFence (String.mk ((t.toList.drop 3).dropWhile jsWhite))
  else t

/-- `tryParseAsJSON`.  `none` models a thrown exception (`JSON.parse` failure,
or the `TypeError` of reading `.ideas` off a parsed `null`); the caller's
try/catch treats it like an empty result. -/
def tryParseAsJSON (text : String) (expectedCount : Nat) (options : FormatOptions) (now : Nat) :
    Option (List BusinessIdea) :=
  let cleanText := stripCodeFence (jsTrim text)
  match parseJsonText cleanText with
  | none => none
  | some .null => none
  | some parsed =>
    let ideasArray := jsOr (jsOr (parsed.field "ideas") (parsed.field "data"))
      (match parsed with | .arr _ => parsed | _ => .arr [parsed])
    match ideasArray with
    | .arr elems =>
        some (((elems.take expectedCount).enum).filterMap
          (fun p => parseIdeaFromData p.2 p.1 options now))
    | _ => some []

/-! ## Structured-text strategy (`parseStructuredText` and helpers)

The section-splitting regexes of `splitIntoIdeaSections` and the field regex of
`extractField` are embedded as direct scanners.  All quantifiers in those
patterns have follow sets disjoint from their character classes except for the
`\s*` before the lazy group of `extractField`, whose backtracking is modelled
explicitly. -/

/-- Case-insensitive literal prefix (the pattern argument is pre-lowered). -/
def ciDropPrefix (pat : List Char) (cs : List Char) : Option (List Char) :=
  match pat, cs with
  | [], rest => some rest
  | p :: ps, c :: rest => if c.toLower = p then ciDropPrefix ps rest else none
  | _ :: _, [] => none

/-- `/##\s*Idea\s+\d+/gi` at the head of the input; yields the suffix after
the match. -/
def matchIdeaHeader (cs : List Char) : Option (List Char) :=
  match cs with
  | '#' :: '#' :: rest =>
    let rest2 := rest.dropWhile jsWhite
    (match ciDropPrefix ['i', 'd', 'e', 'a'] rest2 with
     | some rest3 =>
       if (rest3.takeWhile jsWhite).isEmpty then none
       else
         let rest4 := rest3.dropWhile jsWhite
         let ds := rest4.takeWhile Char.isDigit
         if ds.isEmpty then none else some (rest4.drop ds.length)
     | none => none)
  | _ => none

/-- `/##\s*\d+\./g` at the head of the input. -/
def matchNumberHeader (cs : List Char) : Option (List Char) :=
  match cs with
  | '#' :: '#' :: rest =>
    let rest2 := rest.dropWhile jsWhite
    let ds := rest2.takeWhile Char.isDigit
    if ds.isEmpty then none
    else
      match rest2.drop ds.length with
      | '.' :: r => some r
      | _ => none
  | _ => none

/-- `/\n\n(?=\d+\.\s+[A-Z])/g` at the head of the input; the lookahead is not
consumed. -/
def matchNumberedBlank (cs : List Char) : Option (List Char) :=
  match cs with
  | '\n' :: '\n' :: rest =>
    let ds := rest.takeWhile Char.isDigit
    if ds.isEmpty then none
    else
      match rest.drop ds.length with
      | '.' :: r =>
        if (r.takeWhile jsWhite).isEmpty then none
        else
          (match r.dropWhile jsWhite with
           | c :: _ => if 'A' ≤ c ∧ c ≤ 'Z' then some rest else none
           | [] => none)
      | _ => none
  | _ => none

/-- `/\n---+\n/g` (three or more dashes) at the head of the input. -/
def matchDashLine (cs : List Char) : Option (List Char) :=
  match cs with
  | '\n' :: '-' :: '-' :: '-' :: rest =>
    let ds := rest.takeWhile (fun c => c = '-')
    (match rest.drop ds.length with
     | '\n' :: r => some r
     | _ => none)
  | _ => none

/-- `/\n\n+/` at the head of the input. -/
def matchBlankRun (cs : List Char) : Option (List Char) :=
  match cs with
  | '\n' :: '\n' :: rest => some (rest.dropWhile (fun c => c = '\n'))
  | _ => none

/-- `String.prototype.split` with a global regex that never matches the empty
string: cut at every leftmost non-overlapping match.  The fuel bounds the scan
(every step consumes at least one character). -/
def splitBy (m : List Char → Option (List Char)) : Nat → List Char → List Char → List (List Char)
  | 0, acc, rest => [acc.reverse ++ rest]
  | Nat.succ _, acc, [] => [acc.reverse]
  | Nat.succ fuel, acc, c :: cs =>
    match m (c :: cs) with
    | some rest => acc.reverse :: splitBy m fuel [] rest
    | none => splitBy m fuel (c :: acc) cs

/-- `splitIntoIdeaSections`: first pattern producing at least `expectedCount`
sections wins and its first section is dropped; otherwise split on blank-line
runs. -/
def splitIntoIdeaSections (text : String) (expectedCount : Nat) : List String :=
  let cs := text.toList
  let runSplit := fun m => (splitBy m (cs.length + 1) [] cs).map String.mk
  let s1 := runSplit matchIdeaHeader
  if s1.length ≥ expectedCount then s1.drop 1
  else
    let s2 := runSplit matchNumberHeader
    if s2.length ≥ expectedCount then s2.drop 1
    else
      let s3 := runSplit matchNumberedBlank
      if s3.length ≥ expectedCount then s3.drop 1
      else
        let s4 := runSplit matchDashLine
        if s4.length ≥ expectedCount then s4.drop 1
        else runSplit matchBlankRun

/-- `.` of the field regex: any character except a line terminator. -/
def lineTerm (c : Char) : Bool := c = '\n' ∨ c = '\r' ∨ c = '\u2028' ∨ c = '\u2029'

/-- One cursor position of the lazy group `(.+?)(?=\n|$)`: at least one
non-terminator character, stopping exactly where the next character is `\n` or
the end. -/
def groupAtCursor (cursor : List Char) : Option String :=
  let grp := cursor.takeWhile (fun c => !lineTerm c)
  if grp.isEmpty then none
  else
    match cursor.drop grp.length with
    | [] => some (String.mk grp)
    | c :: _ => if c = '\n' then some (String.mk grp) else none

/-- `\s*(.+?)(?=\n|$)` after the colon: the whitespace run is consumed
greedily, then given back one character at a time until the group matches. -/
def matchValueAfterColon (cs : List Char) : Option String :=
  let ws := cs.takeWhile jsWhite
  let rest := cs.dropWhile jsWhite
  (List.range (ws.length + 1)).findSome? (fun i => groupAtCursor (ws.drop (ws.length - i) ++ rest))

/-- Leftmost full match of `/keyword:\s*(.+?)(?=\n|$)/i` over the text: the
scan resumes at the next position when the tail of the pattern fails. -/
def scanForField (kw : List Char) : Nat → List Char → Option String
  | 0, _ => none
  | Nat.succ _, [] => none
  | Nat.succ fuel, c :: cs =>
    match ciDropPrefix kw (c :: cs) with
    | some afterKw =>
      (match afterKw with
       | ':' :: afterColon =>
         (match matchValueAfterColon afterColon with
          | some v => some v
          | none => scanForField kw fuel cs)
       | _ => scanForField kw fuel cs)
    | none => scanForField kw fuel cs

/-- `extractField`: the first keyword whose pattern matches wins; the raw
group is nonempty (hence truthy), so its trimmed value is returned even when
the trim leaves it empty. -/
def extractField (text : String) (keywords : List String) : Option String :=
  keywords.findSome? (fun kw =>
    match scanForField (kw.toList.map Char.toLower) (text.length + 1) text.toList with
    | some v => some (jsTrim v)
    | none => none)

/-- The argument record of `createIdeaFromExtractedData`. -/
structure ExtractedData where
  title : String
  description : String
  problem : String
  solution : String
  targetMarket : String

def createIdeaFromExtractedData (data : ExtractedData) (index : Nat) (options : FormatOptions)
    (now : Nat) : BusinessIdea :=
  let businessModel := options.defaultBusinessModel.getD .SUBSCRIPTION
  { id := "idea-" ++ toString now ++ "-" ++ toString index
    userId := jsOrStrD options.userId "anonymous-user"
    title := .str data.title
    description := .str data.description
    problem := .str data.problem
    solution := .str data.solution
    targetMarket := .str data.targetMarket
    businessModel
    revenueStreams := [createDefaultRevenueStream businessModel]
    competitiveAdvantage := .str "Unique value proposition to be refined"
    industry := .str (jsOrStrD options.defaultIndustry "Technology")
    tags := [jsOrStrD options.defaultIndustry "Technology"]
    ideaType := options.defaultIdeaType.getD .SAAS
    status := .GENERATED
    createdAt := now
    updatedAt := now }

/-- `s || literal` where `s` came out of `extractField` (null or a possibly
empty string, both falsy). -/
def jsStrOrDefault (v : Option String) (d : String) : String :=
  match v with
  | some s => if s = "" then d else s
  | none => d

/-- `parseIdeaFromSection`: a section without a truthy title or description is
skipped. -/
def parseIdeaFromSection (sectionText : String) (index : Nat) (options : FormatOptions)
    (now : Nat) : Option BusinessIdea :=
  let title := extractField sectionText ["title", "name"]
  let description := extractField sectionText ["description", "overview"]
  let problem := extractField sectionText ["problem", "problem statement"]
  let solution := extractField sectionText ["solution"]
  let targetMarket := extractField sectionText ["target market", "target audience"]
  if title = none ∨ title = some "" ∨ description = none ∨ description = some "" then none
  else some (createIdeaFromExtractedData
    { title := (title.getD "")
      description := (description.getD "")
      problem := jsStrOrDefault problem "To be specified"
      solution := jsStrOrDefault solution "To be specified"
      targetMarket := jsStrOrDefault targetMarket "General market" }
    index options now)

/-- `parseStructuredText`: the first `expectedCount` sections, each parsed
independently (a per-section failure only skips that section). -/
def parseStructuredText (text : String) (expectedCount : Nat) (options : FormatOptions)
    (now : Nat) : List BusinessIdea :=
  let ideaSections := splitIntoIdeaSections text expectedCount
  ((ideaSections.take expectedCount).enum).filterMap
    (fun p => parseIdeaFromSection p.2 p.1 options now)

/-- `createFallbackIdea`. -/
def createFallbackIdea (index : Nat) (options : FormatOptions) (textPreview : String)
    (now : Nat) : BusinessIdea :=
  let businessModel := options.defaultBusinessModel.getD .SUBSCRIPTION
  { id := "idea-" ++ toString now ++ "-" ++ toString index
    userId := jsOrStrD options.userId "anonymous-user"
    title := .str ("Business Idea " ++ toString (index + 1))
    description := .str ("Business idea extracted from AI response. Preview: " ++
      takeChars textPreview 100 ++ "...")
    problem := .str "Problem statement requires refinement"
    solution := .str "Solution details require refinement"
    targetMarket := .str "Target market to be specified"
    businessModel
    revenueStreams := [createDefaultRevenueStream businessModel]
    competitiveAdvantage := .str "To be determined"
    industry := .str (jsOrStrD options.defaultIndustry "Technology")
    tags := [jsOrStrD options.defaultIndustry "Technology"]
    ideaType := options.defaultIdeaType.getD .SAAS
    status := .GENERATED
    createdAt := now
    updatedAt := now }

/-- `extractIdeasWithPatterns`: `expectedCount` placeholder records over the
first 200 characters of the text. -/
def extractIdeasWithPatterns (text : String) (expectedCount : Nat) (options : FormatOptions)
    (now : Nat) : List BusinessIdea :=
  (List.range expectedCount).map (fun i => createFallbackIdea i options (takeChars text 200) now)

/-- `formatBusinessIdeasFromAI`: the three-strategy cascade.  A strategy-1
throw and a strategy-1 empty result both fall through to strategy 2, hence the
`getD []`. -/
def formatBusinessIdeasFromAI (rawText : String) (expectedCount : Nat) (options : FormatOptions)
    (now : Nat) : Except String (List BusinessIdea) :=
  if (jsTrim rawText).length = 0 then .error "Empty AI response received"
  else
    let jsonIdeas := (tryParseAsJSON rawText expectedCount options now).getD []
    if jsonIdeas.length > 0 then .ok jsonIdeas
    else
      let textIdeas := parseStructuredText rawText expectedCount options now
      if textIdeas.length > 0 then .ok textIdeas
      else
        let extractedIdeas := extractIdeasWithPatterns rawText expectedCount options now
        if extractedIdeas.length > 0 then .ok extractedIdeas
        else .error ("Failed to parse AI response into business ideas. " ++
          "The response format may not match expected structure.")

/-! ## The request validator (`generateIdeasValidator.ts`)

The request is modelled at its TypeScript interface types (numbers as `ℚ`,
optional fields as `Option`), so the source's defensive `typeof` re-checks on
already-typed values are unreachable and elided; every reachable check is
embedded.  Each sub-validator receives and returns the shared `errors` array,
mirroring `errors.push`. -/

structure BudgetRange where
  min : Option ℚ := none
  max : Option ℚ := none
  currency : Option String := none

/-- `GenerateIdeasRequest`.  `prompt` is `Option`al because the validator
guards against a caller omitting it; idea types and business models arrive as
strings on the wire and the validator treats them as such. -/
structure GenerateIdeasRequest where
  prompt : Option String := none
  count : Option ℚ := none
  industries : Option (List String) := none
  ideaTypes : Option (List String) := none
  businessModels : Option (List String) := none
  targetMarket : Option String := none
  budgetRange : Option BudgetRange := none
  experienceLevel : Option String := none
  geographicFocus : Option String := none
  additionalContext : Option String := none

structure ValidationResult where
  isValid : Bool
  errors : List String

/-- `GenerateIdeasValidationOptions` (risk appetite arrives as a string,
normalized case-insensitively by its validator). -/
structure GenerateIdeasValidationOptions where
  age : Option ℚ := none
  capital : Option ℚ := none
  interests : Option (List String) := none
  riskAppetite : Option String := none

def validatePrompt (prompt : Option String) (errors : List String) : List String :=
  match prompt with
  | none => errors ++ ["Prompt is required. Please describe what kind of business ideas you are looking for."]
  | some p =>
    if p = "" then
      errors ++ ["Prompt is required. Please describe what kind of business ideas you are looking for."]
    else
      let trimmedPrompt := jsTrim p
      if trimmedPrompt.length = 0 then
        errors ++ ["Prompt cannot be empty. Please provide a description of the business ideas you want."]
      else if trimmedPrompt.length < 3 then
        errors ++ ["Prompt is too short. Please provide at least 3 characters."]
      else if trimmedPrompt.length > 1000 then
        errors ++ ["Prompt is too long. Please limit your description to 1000 characters."]
      else errors

def validateCount (count : Option ℚ) (errors : List String) : List String :=
  match count with
  | none => errors
  | some c =>
    if c.den ≠ 1 then errors ++ ["Count must be a whole number."]
    else if c < 1 then errors ++ ["Count must be at least 1."]
    else if c > 10 then errors ++ ["Count cannot exceed 10 ideas per request."]
    else errors

def validateAge (age : ℚ) (errors : List String) : List String :=
  if age.den ≠ 1 then errors ++ ["Age must be a whole number."]
  else if age < 13 then errors ++ ["Age must be at least 13 years old."]
  else if age > 120 then errors ++ ["Please enter a valid age."]
  else errors

def validateBudgetRange (budgetRange : BudgetRange) (errors : List String) : List String :=
  let errors :=
    match budgetRange.currency with
    | some currency =>
        if currency.length ≠ 3 then
          errors ++ ["Currency must be a 3-letter ISO code (e.g., USD, EUR, GBP)."]
        else errors
    | none => errors
  let errors :=
    match budgetRange.min with
    | some m =>
        if m < 0 then errors ++ ["Budget minimum cannot be negative."]
        else if m > 100000000 then errors ++ ["Budget minimum exceeds maximum allowed value."]
        else errors
    | none => errors
  let errors :=
    match budgetRange.max with
    | some m =>
        if m < 0 then errors ++ ["Budget maximum cannot be negative."]
        else if m > 100000000 then errors ++ ["Budget maximum exceeds maximum allowed value."]
        else errors
    | none => errors
  match budgetRange.min, budgetRange.max with
  | some mn, some mx =>
      if mn > mx then errors ++ ["Budget minimum cannot be greater than budget maximum."]
      else errors
  | _, _ => errors

def validateCapital (budgetRange : Option BudgetRange) (capital : Option ℚ)
    (errors : List String) : List String :=
  match budgetRange with
  | some br => validateBudgetRange br errors
  | none =>
    match capital with
    | some c =>
        if c < 0 then errors ++ ["Capital amount cannot be negative."]
        else if c > 100000000 then
          errors ++ ["Capital amount exceeds maximum allowed value. Please enter a realistic amount."]
        else errors
    | none => errors

def interestItemErrors (p : Nat × String) : List String :=
  let trimmed := jsTrim p.2
  if trimmed.length = 0 then
    ["Interest/industry at index " ++ toString p.1 ++ " cannot be empty."]
  else if trimmed.length > 100 then
    ["Interest/industry at index " ++ toString p.1 ++
      " is too long. Please limit to 100 characters."]
  else []

def validateInterests (industries : Option (List String)) (interests : Option (List String))
    (errors : List String) : List String :=
  match industries.orElse (fun _ => interests) with
  | none => errors
  | some l =>
    if l.isEmpty then
      errors ++ ["Interests/industries array cannot be empty. If provided, it must contain at least one item."]
    else if l.length > 20 then
      errors ++ ["Too many interests/industries specified. Please limit to 20 items."]
    else errors ++ l.enum.flatMap interestItemErrors

def validateRiskAppetite (riskAppetite : String) (errors : List String) : List String :=
  let validValues := ["conservative", "moderate", "aggressive"]
  let normalized := strToLower riskAppetite
  if validValues.contains normalized then errors
  else
    errors ++ ["Risk appetite must be one of: " ++ String.intercalate ", " validValues ++ ". " ++
      "Received: " ++ riskAppetite]

def validateIdeaTypes (ideaTypes : Option (List String)) (errors : List String) : List String :=
  match ideaTypes with
  | none => errors
  | some l =>
    if l.isEmpty then
      errors ++ ["Idea types array cannot be empty. If provided, it must contain at least one item."]
    else if l.length > 10 then
      errors ++ ["Too many idea types specified. Please limit to 10 types."]
    else errors

def validateBusinessModels (businessModels : Option (List String)) (errors : List String) :
    List String :=
  match businessModels with
  | none => errors
  | some l =>
    if l.isEmpty then
      errors ++ ["Business models array cannot be empty. If provided, it must contain at least one item."]
    else if l.length > 10 then
      errors ++ ["Too many business models specified. Please limit to 10 models."]
    else errors

def validateTargetMarket (targetMarket : Option String) (errors : List String) : List String :=
  match targetMarket with
  | none => errors
  | some t =>
    let trimmed := jsTrim t
    if trimmed.length = 0 then errors ++ ["Target market cannot be empty if provided."]
    else if trimmed.length > 500 then
      errors ++ ["Target market description is too long. Please limit to 500 characters."]
    else errors

def validateExperienceLevel (experienceLevel : Option String) (errors : List String) :
    List String :=
  match experienceLevel with
  | none => errors
  | some e =>
    let validLevels := ["beginner", "intermediate", "advanced"]
    if validLevels.contains (strToLower e) then errors
    else
      errors ++ ["Experience level must be one of: " ++ String.intercalate ", " validLevels ++
        ". " ++ "Received: " ++ e]

def validateGeographicFocus (geographicFocus : Option String) (errors : List String) :
    List String :=
  match geographicFocus with
  | none => errors
  | some g =>
    let trimmed := jsTrim g
    if trimmed.length = 0 then errors ++ ["Geographic focus cannot be empty if provided."]
    else if trimmed.length > 200 then
      errors ++ ["Geographic focus is too long. Please limit to 200 characters."]
    else errors

def validateAdditionalContext (additionalContext : Option String) (errors : List String) :
    List String :=
  match additionalContext with
  | none => errors
  | some a =>
    let trimmed := jsTrim a
    if trimmed.length = 0 then errors ++ ["Additional context cannot be empty if provided."]
    else if trimmed.length > 2000 then
      errors ++ ["Additional context is too long. Please limit to 2000 characters."]
    else errors

/-- `validateGenerateIdeasRequest`: every sub-validator runs, appending to the
shared error array; `isValid` is `errors.length === 0`. -/
def validateGenerateIdeasRequest (request : GenerateIdeasRequest)
    (options : GenerateIdeasValidationOptions) : ValidationResult :=
  let errors : List String := []
  let errors := validatePrompt request.prompt errors
  let errors := validateCount request.count errors
  let errors := match options.age with
    | some a => validateAge a errors
    | none => errors
  let errors := validateCapital request.budgetRange options.capital errors
  let errors := validateInterests request.industries options.interests errors
  let errors := match options.riskAppetite with
    | some r => validateRiskAppetite r errors
    | none => errors
  let errors := validateIdeaTypes request.ideaTypes errors
  let errors := validateBusinessModels request.businessModels errors
  let errors := validateTargetMarket request.targetMarket errors
  let errors := validateExperienceLevel request.experienceLevel errors
  let errors := validateGeographicFocus request.geographicFocus errors
  let errors := validateAdditionalContext request.additionalContext errors
  { isValid := errors.length = 0, errors }

/-! ## The prompt builder (`businessIdeaPrompt.ts`)

Number rendering: JS prints an integral number as plain digits; the exact
finite decimal expansion is used otherwise (every JS float value has one).
`toLocaleString()` in the default en-US locale groups thousands and keeps at
most three fraction digits, rounded half away from zero. -/

/-- Insert a comma before each later group of three digits; the input is the
reversed digit list. -/
def commaGroupRev : List Char → Nat → List Char
  | [], _ => []
  | c :: cs, k =>
    if k = 3 then ',' :: c :: commaGroupRev cs 1
    else c :: commaGroupRev cs (k + 1)

def groupDigits (n : Nat) : String :=
  String.mk ((commaGroupRev (toString n).toList.reverse 0).reverse)

/-- `String(q)` for a JS number. -/
def ratDecimalString (q : ℚ) : String :=
  if q.den = 1 then (if q < 0 then "-" else "") ++ toString q.num.natAbs
  else
    match (List.range 40).find? (fun k => (10 ^ k) % q.den = 0) with
    | some k =>
      let scaled : Nat := q.num.natAbs * (10 ^ k / q.den)
      let digits := toString scaled
      let padded := String.mk (List.replicate (k + 1 - digits.length) '0') ++ digits
      let cs := padded.toList
      let intPart := cs.take (cs.length - k)
      let fracPart := ((cs.drop (cs.length - k)).reverse.dropWhile (fun c => c = '0')).reverse
      (if q < 0 then "-" else "") ++ String.mk intPart ++
        (if fracPart.isEmpty then "" else "." ++ String.mk fracPart)
    | none => toString q.num ++ "/" ++ toString q.den

/-- `q.toLocaleString()` in the default locale: thousands grouping, at most
three fraction digits rounded half away from zero.  Computed on the numerator
and denominator directly: `round(|q|*1000) = (2*|num|*1000 + den) / (2*den)`
in floor division. -/
def jsToLocaleString (q : ℚ) : String :=
  let n : Nat := (2 * q.num.natAbs * 1000 + q.den) / (2 * q.den)
  let intPart := n / 1000
  let fracNum := n % 1000
  let fracDigits :=
    let s := toString fracNum
    let padded := String.mk (List.replicate (3 - s.length) '0') ++ s
    String.mk (padded.toList.reverse.dropWhile (fun c => c = '0')).reverse
  (if q.num < 0 && n ≠ 0 then "-" else "") ++ groupDigits intPart ++
    (if fracDigits = "" then "" else "." ++ fracDigits)

/-- Head of the user prompt.  Template interpolation of a missing `prompt`
field stringifies `undefined`. -/
def businessIdeaPromptHeader (request : GenerateIdeasRequest) : String :=
  let count := request.count.getD 3
  "Generate " ++ ratDecimalString count ++
    " innovative business ideas based on the following request:\n\nUSER REQUEST: \"" ++
    request.prompt.getD "undefined" ++ "\""

def industriesSection (request : GenerateIdeasRequest) : String :=
  match request.industries with
  | some industries =>
      if industries.length > 0 then
        "\n\nINDUSTRIES TO FOCUS ON: " ++ String.intercalate ", " industries
      else ""
  | none => ""

def ideaTypesSection (request : GenerateIdeasRequest) : String :=
  match request.ideaTypes with
  | some ideaTypes =>
      if ideaTypes.length > 0 then
        "\n\nPREFERRED IDEA TYPES: " ++ String.intercalate ", " ideaTypes
      else ""
  | none => ""

def businessModelsSection (request : GenerateIdeasRequest) : String :=
  match request.businessModels with
  | some businessModels =>
      if businessModels.length > 0 then
        "\n\nPREFERRED BUSINESS MODELS: " ++ String.intercalate ", " businessModels
      else ""
  | none => ""

def targetMarketSection (request : GenerateIdeasRequest) : String :=
  match request.targetMarket with
  | some t => if t = "" then "" else "\n\nTARGET MARKET: " ++ t
  | none => ""

/-- The budget section tests the bounds with `&&`/truthiness, so a present but
zero bound is treated exactly like an absent one. -/
def budgetSection (request : GenerateIdeasRequest) : String :=
  match request.budgetRange with
  | none => ""
  | some budgetRange =>
    let currency := jsOrStrD budgetRange.currency "USD"
    let truthyMin : Option ℚ :=
      match budgetRange.min with
      | some m => if m ≠ 0 then some m else none
      | none => none
    let truthyMax : Option ℚ :=
      match budgetRange.max with
      | some m => if m ≠ 0 then some m else none
      | none => none
    match truthyMin, truthyMax with
    | some mn, some mx =>
        "\n\nBUDGET CONSTRAINT: " ++ jsToLocaleString mn ++ " - " ++ jsToLocaleString mx ++
          " " ++ currency
    | some mn, none => "\n\nMINIMUM BUDGET: " ++ jsToLocaleString mn ++ " " ++ currency
    | none, some mx => "\n\nMAXIMUM BUDGET: " ++ jsToLocaleString mx ++ " " ++ currency
    | none, none => ""

def experienceSection (request : GenerateIdeasRequest) : String :=
  match request.experienceLevel with
  | some e =>
      if e = "" then ""
      else
        "\n\nUSER EXPERIENCE LEVEL: " ++ e ++
          (if e = "beginner" then
            "\nNote: Focus on ideas that are accessible to entrepreneurs with limited experience. Prioritize lower-risk, simpler concepts."
          else if e = "advanced" then
            "\nNote: User has advanced business experience - consider more complex, scalable opportunities."
          else "")
  | none => ""

def geographicSection (request : GenerateIdeasRequest) : String :=
  match request.geographicFocus with
  | some g => if g = "" then "" else "\n\nGEOGRAPHIC FOCUS: " ++ g
  | none => ""

def additionalContextSection (request : GenerateIdeasRequest) : String :=
  match request.additionalContext with
  | some a => if a = "" then "" else "\n\nADDITIONAL CONTEXT: " ++ a
  | none => ""

def businessIdeaPromptFooter : String :=
  "\n\nFor each business idea, provide:\n1. A compelling, clear title\n2. A comprehensive description (2-3 paragraphs)\n3. A specific problem statement that this idea addresses\n4. A detailed solution explanation\n5. Target market segmentation (be specific about demographics, psychographics, etc.)\n6. Recommended business model with rationale\n7. Primary revenue streams with estimated projections\n8. Competitive advantage and differentiation strategy\n9. Realistic initial investment range (specify currency and timeframe)\n10. Revenue projections for years 1, 2, 3, and 5\n11. Relevant industry tags\n12. An assessment score (0-100) indicating the idea\u0027s potential\n\nEnsure each idea is:\n- Unique and differentiated from the others\n- Actionable and feasible\n- Well-researched and market-aware\n- Aligned with the user\u0027s specified preferences and constraints\n\nMake the ideas practical, innovative, and tailored to the user\u0027s request."

/-- `businessIdeaPrompt`: the sequential `promptText +=` chain of the source. -/
def businessIdeaPrompt (request : GenerateIdeasRequest) : String :=
  let promptText := businessIdeaPromptHeader request
  let promptText := promptText ++ industriesSection request
  let promptText := promptText ++ ideaTypesSection request
  let promptText := promptText ++ businessModelsSection request
  let promptText := promptText ++ targetMarketSection request
  let promptText := promptText ++ budgetSection request
  let promptText := promptText ++ experienceSection request
  let promptText := promptText ++ geographicSection request
  let promptText := promptText ++ additionalContextSection request
  promptText ++ businessIdeaPromptFooter

/-! ## The HTTP route (`src/app/api/generate-ideas/route.ts`)

The handler is modelled over the already-attempted JSON body (`none` models a
`request.json()` failure) and over the outcome of the service call
(`gen body = none` models a throw from `generateBusinessIdeas`, which the
outer catch turns into the generic 500). -/

structure ApiResponse where
  status : Nat
  body : Json

def routeGenerateIdeasPOST (bodyResult : Option Json) (gen : Json → Option Json) : ApiResponse :=
  match bodyResult with
  | none => ⟨400, .obj [("error", .str "Invalid JSON in request body")]⟩
  | some body =>
    match body with
    | .null =>
        -- `body.prompt` on a parsed `null` throws; the outer catch answers 500.
        ⟨500, .obj [("error", .str "Internal server error while generating ideas")]⟩
    | _ =>
      let promptV := body.field "prompt"
      let promptBad : Bool :=
        !promptV.truthy ||
        (match promptV with | .str _ => false | _ => true) ||
        (match promptV with | .str s => (jsTrim s).length == 0 | _ => false)
      if promptBad then
        ⟨400, .obj [("error", .str "Missing or invalid required field: prompt")]⟩
      else
        let countV := body.field "count"
        let countBad : Bool :=
          match countV with
          | .undefined => false
          | .num c => if c < 1 ∨ c > 10 then true else false
          | _ => true
        if countBad then
          ⟨400, .obj [("error", .str "count must be a number between 1 and 10")]⟩
        else
          let industriesV := body.field "industries"
          let industriesBad : Bool :=
            match industriesV with
            | .undefined => false
            | .arr items => items.any (fun i => match i with | .str _ => false | _ => true)
            | _ => true
          if industriesBad then
            ⟨400, .obj [("error", .str "industries must be an array of strings")]⟩
          else
            match gen body with
            | some response => ⟨200, response⟩
            | none => ⟨500, .obj [("error", .str "Internal server error while generating ideas")]⟩

/-- Substring test used to state rendering facts about concrete prompts. -/
def listContainsSub (pat : List Char) : List Char → Bool
  | [] => pat.isEmpty
  | c :: cs => pat.isPrefixOf (c :: cs) || listContainsSub pat cs

def containsSub (s pat : String) : Bool := listContainsSub pat.toList s.toList

/-- A validator-accepted request whose budget carries a present minimum of 0:
the prompt builder's truthiness test drops the zero bound. -/
def cex7req : GenerateIdeasRequest :=
  { prompt := some "start a business"
    budgetRange := some { min := some 0, max := some 5000, currency := some "USD" } }

/-- A validator-accepted request with every optional section present. -/
def wreq : GenerateIdeasRequest :=
  { prompt := some "eco friendly business ideas"
    count := some 2
    industries := some ["Food tech"]
    ideaTypes := some ["saas"]
    businessModels := some ["b2c"]
    targetMarket := some "students"
    budgetRange := some { min := some 100, max := some 5000, currency := some "USD" }
    experienceLevel := some "beginner"
    geographicFocus := some "EU"
    additionalContext := some "bootstrap friendly" }

/-! ## Claims -/

/-- A string with a nonempty prefix is truthy. -/
theorem str_truthy_of_length {s : String} (h : s.length ≠ 0) : Json.truthy (.str s) = true := by
  simp only [Json.truthy, decide_eq_true_iff]
  intro he
  exact h (he ▸ rfl)

/-- The synthesized default title is never empty. -/
theorem defaultTitle_truthy (i : Nat) :
    Json.truthy (.str ("Business Idea " ++ toString (i + 1))) = true := by
  apply str_truthy_of_length
  rw [String.length_append]
  have h14 : ("Business Idea ").length = 14 := rfl
  omega

/-- C3: parsing the well-formed JSON text with one titled and described idea at
`expectedCount = 1` yields exactly one record with title "A", description "B",
and the single default revenue stream synthesized from the default business
model (subscription). -/
theorem parseIdeas_wellformed_json_single :
    (formatBusinessIdeasFromAI "\x7b\"ideas\":[\x7b\"title\":\"A\",\"description\":\"B\"\x7d]\x7d"
        1 {} 0).map
      (List.map (fun idea => (idea.title, idea.description, idea.revenueStreams))) =
    .ok [(.str "A", .str "B", [createDefaultRevenueStream BusinessModel.SUBSCRIPTION])] := by
  rfl

/-- C4 counterexample: a JSON element with no usable title (no `title`, `name`
or `heading` key) is not dropped; it survives as a full record carrying the
synthesized default title `Business Idea 1`, so the surviving count equals
`expectedCount` rather than falling below it. -/
theorem missing_title_element_not_dropped :
    (formatBusinessIdeasFromAI "\x7b\"ideas\":[\x7b\"description\":\"B\"\x7d]\x7d" 1 {} 0).map
      (List.map (fun idea => idea.title)) = .ok [.str "Business Idea 1"] ∧
    (formatBusinessIdeasFromAI "\x7b\"ideas\":[\x7b\"description\":\"B\"\x7d]\x7d" 1 {} 0).map
      List.length = .ok 1 := by
  exact ⟨rfl, rfl⟩

/-- C4 amended: in field reconciliation an element yielding no usable title is
kept, with the synthesized default title `Business Idea (index+1)`; an element
is dropped only when reconciliation throws (property access on a `null`
element), which is what can make the surviving count fall below
`expectedCount`. -/
theorem reconciliation_keeps_untitled_elements
    (fields : List (String × Json)) (i : Nat) (opts : FormatOptions) (now : Nat)
    (ht : ((Json.obj fields).field "title").truthy = false)
    (hn : ((Json.obj fields).field "name").truthy = false)
    (hh : ((Json.obj fields).field "heading").truthy = false) :
    (∃ r, parseIdeaFromData (.obj fields) i opts now = some r ∧
        r.title = .str ("Business Idea " ++ toString (i + 1))) ∧
    parseIdeaFromData .null i opts now = none ∧
    (tryParseAsJSON "[null,\x7b\"title\":\"A\",\"description\":\"B\"\x7d]" 2 {} 0).map
      List.length = some 1 := by
  refine ⟨?_, rfl, rfl⟩
  simp only [parseIdeaFromData, jsOr, ht, hn, hh, if_false, Bool.false_eq_true, ite_false]
  simp only [defaultTitle_truthy, Bool.not_true, Bool.false_eq_true, if_false, ite_false]
  exact ⟨_, rfl, rfl⟩

/-- Witness for the amended C4 theorem at a concrete element. -/
theorem reconciliation_keeps_untitled_elements_witness :
    (∃ r, parseIdeaFromData (.obj [("description", .str "B")]) 0 {} 0 = some r ∧
        r.title = .str ("Business Idea " ++ toString (0 + 1))) ∧
    parseIdeaFromData .null 0 {} 0 = none ∧
    (tryParseAsJSON "[null,\x7b\"title\":\"A\",\"description\":\"B\"\x7d]" 2 {} 0).map
      List.length = some 1 :=
  reconciliation_keeps_untitled_elements [("description", .str "B")] 0 {} 0 rfl rfl rfl

/-- C9: `parseScore` maps -10, 150, 57 to 0, 100, 57; every number is clamped
to `[0,100]`; a string is clamped iff `parseInt` parses it (the reading of
"numeric string" the spec's own wording "parsed and clamped ... else left
undefined" fixes); everything else yields `undefined`. -/
theorem parseScore_clamps :
    parseScore (.num (-10)) = some 0 ∧ parseScore (.num 150) = some 100 ∧
    parseScore (.num 57) = some 57 ∧
    (∀ q : ℚ, parseScore (.num q) = some (max 0 (min 100 q)) ∧
      0 ≤ max 0 (min 100 q) ∧ max 0 (min 100 q) ≤ 100 ∧
      (0 ≤ q → q ≤ 100 → max 0 (min 100 q) = q)) ∧
    (∀ (s : String) (n : Int), jsParseInt s = some n →
      parseScore (.str s) = some (max 0 (min 100 (n : ℚ)))) ∧
    (∀ s : String, jsParseInt s = none → parseScore (.str s) = none) ∧
    (∀ d : Json, d.isNum = false → d.isStr = false → parseScore d = none) := by
  refine ⟨by decide, by decide, by decide, ?_, ?_, ?_, ?_⟩
  · intro q
    refine ⟨rfl, le_max_left _ _, max_le (by norm_num) (min_le_left _ _), ?_⟩
    intro h0 h100
    rw [min_eq_right h100, max_eq_right h0]
  · intro s n h
    simp only [parseScore, h]
  · intro s h
    simp only [parseScore, h]
  · intro d h1 h2
    cases d <;> simp_all [Json.isNum, Json.isStr, parseScore]

/-- Witness for the `parseScore` theorem at the string inputs "42" and "abc"
and the boolean input `true`. -/
theorem parseScore_clamps_witness :
    parseScore (.str "42") = some (max 0 (min 100 ((42 : Int) : ℚ))) ∧
    parseScore (.str "abc") = none ∧ parseScore (.bool true) = none :=
  ⟨parseScore_clamps.2.2.2.2.1 "42" 42 (by decide),
   parseScore_clamps.2.2.2.2.2.1 "abc" (by decide),
   parseScore_clamps.2.2.2.2.2.2 (.bool true) rfl rfl⟩

/-- C10: `parseInvestmentRange` on an object element keeps each truthy bound
as supplied and replaces a falsy bound by the default (10000 for min, 50000
for max) — in particular a supplied minimum of 0 becomes 10000 — and the
reconciled record stores exactly this range as its `initialInvestment`. -/
theorem parseInvestmentRange_truthy_defaults :
    (∀ (fields : List (String × Json)) (c : String),
      ∃ r, parseInvestmentRange (.obj fields) c = some r ∧
        r.min = (if ((Json.obj fields).field "min").truthy then (Json.obj fields).field "min"
          else .num 10000) ∧
        r.max = (if ((Json.obj fields).field "max").truthy then (Json.obj fields).field "max"
          else .num 50000)) ∧
    parseInvestmentRange (.obj [("min", .num 0), ("max", .num 5000)]) "USD" =
      some { min := .num 10000, max := .num 5000, currency := .str "USD",
             timeframe := .str "3-6 months" } ∧
    (∀ (data : Json) (i : Nat) (opts : FormatOptions) (now : Nat) (r : BusinessIdea),
      parseIdeaFromData data i opts now = some r →
      r.initialInvestment =
        parseInvestmentRange (data.field "initialInvestment")
          (jsOrStrD opts.defaultCurrency "USD")) := by
  refine ⟨fun fields c => ⟨_, rfl, rfl, rfl⟩, rfl, ?_⟩
  intro data i opts now r h
  cases data <;> simp only [parseIdeaFromData] at h
  case null => exact absurd h (by simp)
  case undefined => exact absurd h (by simp)
  all_goals
    split at h
    next => exact absurd h (by simp)
    next =>
      obtain rfl := Option.some.inj h
      rfl

/-- Witness for the `parseInvestmentRange` theorem: a concrete element whose
`initialInvestment` object supplies `min = 0`. -/
theorem parseInvestmentRange_truthy_defaults_witness :
    ∃ r, parseIdeaFromData (.obj [("title", .str "T"),
        ("initialInvestment", .obj [("min", .num 0), ("max", .num 5000)])]) 0 {} 0 = some r ∧
      r.initialInvestment =
        parseInvestmentRange
          ((Json.obj [("title", .str "T"),
            ("initialInvestment", .obj [("min", .num 0), ("max", .num 5000)])]).field
              "initialInvestment")
          (jsOrStrD ({} : FormatOptions).defaultCurrency "USD") :=
  ⟨_, rfl, parseInvestmentRange_truthy_defaults.2.2 _ 0 {} 0 _ rfl⟩

/-- Any record surviving field reconciliation has a nonempty revenue-stream
list, and when no stream was parsed from the element the list is exactly the
default stream synthesized from the record's business-model tag. -/
theorem parseIdeaFromData_revenueStreams (data : Json) (i : Nat) (opts : FormatOptions)
    (now : Nat) (r : BusinessIdea) (h : parseIdeaFromData data i opts now = some r) :
    r.revenueStreams ≠ [] ∧
    (parseRevenueStreams (data.field "revenueStreams") (jsOrStrD opts.defaultCurrency "USD") = [] →
      r.revenueStreams = [createDefaultRevenueStream r.businessModel]) := by
  cases data <;> simp only [parseIdeaFromData] at h
  case null => exact absurd h (by simp)
  case undefined => exact absurd h (by simp)
  all_goals
    split at h
    next => exact absurd h (by simp)
    next =>
      obtain rfl := Option.some.inj h
      refine ⟨?_, ?_⟩
      · dsimp only
        split
        next hlen => exact fun he => by rw [he] at hlen; simp at hlen
        next => simp
      · intro hrs
        dsimp only
        rw [hrs]
        simp

/-- The JSON strategy returns either no usable elements or the reconciliation
of the first `expectedCount` parsed elements. -/
theorem tryParseAsJSON_sound (text : String) (n : Nat) (opts : FormatOptions) (now : Nat)
    (l : List BusinessIdea) (h : tryParseAsJSON text n opts now = some l) :
    l = [] ∨ ∃ elems : List Json,
      l = (elems.take n).enum.filterMap (fun p => parseIdeaFromData p.2 p.1 opts now) := by
  simp only [tryParseAsJSON] at h
  split at h
  · exact absurd h (by simp)
  · exact absurd h (by simp)
  · split at h
    · right
      exact ⟨_, (Option.some.inj h).symm⟩
    · left
      exact (Option.some.inj h).symm

/-- A record built from a structured-text section carries exactly the default
revenue stream of the default business model. -/
theorem parseIdeaFromSection_revenueStreams (s : String) (i : Nat) (opts : FormatOptions)
    (now : Nat) (r : BusinessIdea) (h : parseIdeaFromSection s i opts now = some r) :
    r.revenueStreams = [createDefaultRevenueStream (opts.defaultBusinessModel.getD .SUBSCRIPTION)] := by
  simp only [parseIdeaFromSection] at h
  split at h
  · exact absurd h (by simp)
  · obtain rfl := Option.some.inj h
    rfl

/-- C5: every record returned by the cascade (whichever of the three
strategies produced it) has a nonempty revenue-stream list; when no stream was
parsed from the source element a default stream synthesized from the record's
business-model tag is attached, and the structured-text and fallback builders
always attach exactly that default stream. -/
theorem returned_records_have_revenue_streams (text : String) (n : Nat) (opts : FormatOptions)
    (now : Nat) (l : List BusinessIdea)
    (h : formatBusinessIdeasFromAI text n opts now = .ok l) :
    (∀ idea ∈ l, idea.revenueStreams ≠ []) ∧
    (∀ (data : Json) (i : Nat) (r : BusinessIdea), parseIdeaFromData data i opts now = some r →
      parseRevenueStreams (data.field "revenueStreams") (jsOrStrD opts.defaultCurrency "USD") = [] →
      r.revenueStreams = [createDefaultRevenueStream r.businessModel]) ∧
    (∀ (d : ExtractedData) (i : Nat),
      (createIdeaFromExtractedData d i opts now).revenueStreams =
        [createDefaultRevenueStream (opts.defaultBusinessModel.getD .SUBSCRIPTION)]) ∧
    (∀ (i : Nat) (p : String),
      (createFallbackIdea i opts p now).revenueStreams =
        [createDefaultRevenueStream (opts.defaultBusinessModel.getD .SUBSCRIPTION)]) := by
  refine ⟨?_, fun data i r hr hrs => (parseIdeaFromData_revenueStreams data i opts now r hr).2 hrs,
    fun d i => rfl, fun i p => rfl⟩
  simp only [formatBusinessIdeasFromAI] at h
  split at h
  · exact absurd h (by simp)
  · split at h
    next hlen =>
      -- strategy 1 produced the result
      obtain rfl : (tryParseAsJSON text n opts now).getD [] = l := by injection h
      rcases hj : tryParseAsJSON text n opts now with _ | l'
      · rw [hj] at hlen; simp at hlen
      · rcases tryParseAsJSON_sound text n opts now l' hj with rfl | ⟨elems, rfl⟩
        · intro idea hmem; simp at hmem
        · intro idea hmem
          simp only [Option.getD_some, List.mem_filterMap] at hmem
          obtain ⟨p, _, hsome⟩ := hmem
          exact (parseIdeaFromData_revenueStreams p.2 p.1 opts now idea hsome).1
    next =>
      split at h
      next =>
        -- strategy 2 produced the result
        obtain rfl : parseStructuredText text n opts now = l := by injection h
        intro idea hmem
        simp only [parseStructuredText, List.mem_filterMap] at hmem
        obtain ⟨p, _, hsome⟩ := hmem
        rw [parseIdeaFromSection_revenueStreams p.2 p.1 opts now idea hsome]
        simp
      next =>
        split at h
        next =>
          -- strategy 3 produced the result
          obtain rfl : extractIdeasWithPatterns text n opts now = l := by injection h
          intro idea hmem
          simp only [extractIdeasWithPatterns, List.mem_map] at hmem
          obtain ⟨i, _, rfl⟩ := hmem
          simp [createFallbackIdea]
        next => exact absurd h (by simp)

/-- Witness for the revenue-stream invariant: the cascade run on plain prose
(fallback strategy) at `expectedCount = 1`. -/
theorem returned_records_have_revenue_streams_witness :
    (∀ idea ∈ [createFallbackIdea 0 {} (takeChars "plain text" 200) 0],
      idea.revenueStreams ≠ []) ∧
    (∀ (data : Json) (i : Nat) (r : BusinessIdea), parseIdeaFromData data i {} 0 = some r →
      parseRevenueStreams (data.field "revenueStreams")
        (jsOrStrD ({} : FormatOptions).defaultCurrency "USD") = [] →
      r.revenueStreams = [createDefaultRevenueStream r.businessModel]) ∧
    (∀ (d : ExtractedData) (i : Nat),
      (createIdeaFromExtractedData d i {} 0).revenueStreams =
        [createDefaultRevenueStream
          (({} : FormatOptions).defaultBusinessModel.getD .SUBSCRIPTION)]) ∧
    (∀ (i : Nat) (p : String),
      (createFallbackIdea i {} p 0).revenueStreams =
        [createDefaultRevenueStream
          (({} : FormatOptions).defaultBusinessModel.getD .SUBSCRIPTION)]) :=
  returned_records_have_revenue_streams "plain text" 1 {} 0 _ rfl

/-- C1: the cascade raises its top-level error exactly when the input is
blank on entry or none of the three strategies contributes a record, and on a
blank input the error raised is the entry check's `Empty AI response
received`, independent of the strategies. -/
theorem formatBusinessIdeasFromAI_error_iff (text : String) (n : Nat) (opts : FormatOptions)
    (now : Nat) :
    ((∃ e, formatBusinessIdeasFromAI text n opts now = .error e) ↔
      ((jsTrim text).length = 0 ∨
        ((tryParseAsJSON text n opts now).getD [] = [] ∧
          parseStructuredText text n opts now = [] ∧
          extractIdeasWithPatterns text n opts now = []))) ∧
    ((jsTrim text).length = 0 →
      formatBusinessIdeasFromAI text n opts now = .error "Empty AI response received") := by
  constructor
  · constructor
    · rintro ⟨e, he⟩
      simp only [formatBusinessIdeasFromAI] at he
      split at he
      next hb => exact Or.inl hb
      next hb =>
        right
        split at he
        next => exact absurd he (by simp)
        next h1 =>
          split at he
          next => exact absurd he (by simp)
          next h2 =>
            split at he
            next => exact absurd he (by simp)
            next h3 =>
              refine ⟨List.eq_nil_of_length_eq_zero ?_, List.eq_nil_of_length_eq_zero ?_,
                List.eq_nil_of_length_eq_zero ?_⟩ <;> omega
    · intro hcase
      by_cases hb : (jsTrim text).length = 0
      · exact ⟨"Empty AI response received", by simp [formatBusinessIdeasFromAI, hb]⟩
      · rcases hcase with hb2 | ⟨hj, hs, hf⟩
        · exact absurd hb2 hb
        · refine ⟨"Failed to parse AI response into business ideas. " ++
            "The response format may not match expected structure.", ?_⟩
          simp [formatBusinessIdeasFromAI, hb, hj, hs, hf]
  · intro hb
    simp [formatBusinessIdeasFromAI, hb]

/-- Witness for the error characterisation: empty and all-whitespace inputs
raise the parse error. -/
theorem formatBusinessIdeasFromAI_error_iff_witness :
    formatBusinessIdeasFromAI "" 3 {} 0 = .error "Empty AI response received" ∧
    formatBusinessIdeasFromAI "  \n " 3 {} 0 = .error "Empty AI response received" :=
  ⟨(formatBusinessIdeasFromAI_error_iff "" 3 {} 0).2 (by decide),
   (formatBusinessIdeasFromAI_error_iff "  \n " 3 {} 0).2 (by decide)⟩

/-- `toList` distributes over string append. -/
theorem strToList_append (a b : String) : (a ++ b).toList = a.toList ++ b.toList := rfl

/-- Taking 100 characters of a 200-character preview is taking 100 characters
of the original text. -/
theorem takeChars_takeChars (s : String) : takeChars (takeChars s 200) 100 = takeChars s 100 := by
  simp [takeChars, List.take_take]

/-- C2: on a non-blank input where the JSON and structured-text strategies
contribute no record and `expectedCount ≥ 1`, the cascade answers with exactly
`expectedCount` placeholder records; every one embeds the first 100 characters
of the raw text in its nonempty description and takes all other fields from
the defaults. -/
theorem fallback_strategy_placeholders (text : String) (n : Nat) (opts : FormatOptions)
    (now : Nat)
    (hblank : (jsTrim text).length ≠ 0)
    (hjson : (tryParseAsJSON text n opts now).getD [] = [])
    (htext : parseStructuredText text n opts now = [])
    (hn : 1 ≤ n) :
    ∃ l, formatBusinessIdeasFromAI text n opts now = .ok l ∧ l.length = n ∧
      ∀ idea ∈ l,
        idea.description = .str ("Business idea extracted from AI response. Preview: " ++
          takeChars text 100 ++ "...") ∧
        (∃ s, idea.description = .str s ∧ s ≠ "" ∧
          (takeChars text 100).toList <:+: s.toList) ∧
        idea.businessModel = opts.defaultBusinessModel.getD .SUBSCRIPTION ∧
        idea.industry = .str (jsOrStrD opts.defaultIndustry "Technology") ∧
        idea.tags = [jsOrStrD opts.defaultIndustry "Technology"] ∧
        idea.ideaType = opts.defaultIdeaType.getD .SAAS ∧
        idea.userId = jsOrStrD opts.userId "anonymous-user" ∧
        idea.problem = .str "Problem statement requires refinement" ∧
        idea.solution = .str "Solution details require refinement" ∧
        idea.targetMarket = .str "Target market to be specified" ∧
        idea.status = .GENERATED := by
  have hpos : 0 < n := hn
  refine ⟨extractIdeasWithPatterns text n opts now, ?_, ?_, ?_⟩
  · simp only [formatBusinessIdeasFromAI]
    rw [if_neg hblank, hjson, htext]
    simp [extractIdeasWithPatterns, hpos]
  · simp [extractIdeasWithPatterns]
  · intro idea hmem
    simp only [extractIdeasWithPatterns, List.mem_map] at hmem
    obtain ⟨i, _, rfl⟩ := hmem
    have heq := takeChars_takeChars text
    simp only [createFallbackIdea, heq]
    refine ⟨trivial, ⟨_, rfl, ?_, ?_⟩, trivial, trivial, trivial, trivial, trivial, trivial,
      trivial, trivial, trivial⟩
    · intro he
      have hlen := congrArg String.length he
      rw [String.length_append, String.length_append] at hlen
      have h51 : ("Business idea extracted from AI response. Preview: ").length = 51 := rfl
      have h3 : ("...").length = 3 := rfl
      have h0 : ("" : String).length = 0 := rfl
      omega
    · exact ⟨("Business idea extracted from AI response. Preview: ").toList, ("...").toList,
        by rw [← strToList_append, ← strToList_append]⟩

/-- Witness for the fallback-placeholder theorem on concrete unparseable
prose at `expectedCount = 3`. -/
theorem fallback_strategy_placeholders_witness :
    ∃ l, formatBusinessIdeasFromAI "Totally unstructured prose." 3 {} 0 = .ok l ∧
      l.length = 3 ∧
      ∀ idea ∈ l,
        idea.description = .str ("Business idea extracted from AI response. Preview: " ++
          takeChars "Totally unstructured prose." 100 ++ "...") ∧
        (∃ s, idea.description = .str s ∧ s ≠ "" ∧
          (takeChars "Totally unstructured prose." 100).toList <:+: s.toList) ∧
        idea.businessModel = ({} : FormatOptions).defaultBusinessModel.getD .SUBSCRIPTION ∧
        idea.industry = .str (jsOrStrD ({} : FormatOptions).defaultIndustry "Technology") ∧
        idea.tags = [jsOrStrD ({} : FormatOptions).defaultIndustry "Technology"] ∧
        idea.ideaType = ({} : FormatOptions).defaultIdeaType.getD .SAAS ∧
        idea.userId = jsOrStrD ({} : FormatOptions).userId "anonymous-user" ∧
        idea.problem = .str "Problem statement requires refinement" ∧
        idea.solution = .str "Solution details require refinement" ∧
        idea.targetMarket = .str "Target market to be specified" ∧
        idea.status = .GENERATED :=
  fallback_strategy_placeholders "Totally unstructured prose." 3 {} 0 (by decide) rfl rfl
    (by decide)

/-! Each sub-validator only pushes onto the shared error array, so it is an
append homomorphism. -/

theorem validatePrompt_append (p : Option String) (e : List String) :
    validatePrompt p e = e ++ validatePrompt p [] := by
  cases p <;> simp only [validatePrompt] <;> first | (split_ifs <;> simp) | simp

theorem validateCount_append (c : Option ℚ) (e : List String) :
    validateCount c e = e ++ validateCount c [] := by
  cases c <;> simp only [validateCount] <;> first | (split_ifs <;> simp) | simp

theorem validateAge_append (a : ℚ) (e : List String) :
    validateAge a e = e ++ validateAge a [] := by
  simp only [validateAge]
  split_ifs <;> simp

theorem validateBudgetRange_append (br : BudgetRange) (e : List String) :
    validateBudgetRange br e = e ++ validateBudgetRange br [] := by
  obtain ⟨mn, mx, cur⟩ := br
  cases cur <;> cases mn <;> cases mx <;> simp only [validateBudgetRange] <;>
    first | (split_ifs <;> simp) | simp

theorem validateCapital_append (br : Option BudgetRange) (cap : Option ℚ) (e : List String) :
    validateCapital br cap e = e ++ validateCapital br cap [] := by
  cases br with
  | some b => simpa [validateCapital] using validateBudgetRange_append b e
  | none => cases cap <;> simp only [validateCapital] <;> first | (split_ifs <;> simp) | simp

theorem validateInterests_append (ind intr : Option (List String)) (e : List String) :
    validateInterests ind intr e = e ++ validateInterests ind intr [] := by
  simp only [validateInterests]
  cases ind.orElse (fun _ => intr) with
  | none => simp
  | some l =>
    dsimp only
    split_ifs <;> simp

theorem validateRiskAppetite_append (r : String) (e : List String) :
    validateRiskAppetite r e = e ++ validateRiskAppetite r [] := by
  simp only [validateRiskAppetite]
  split_ifs <;> simp

theorem validateIdeaTypes_append (l : Option (List String)) (e : List String) :
    validateIdeaTypes l e = e ++ validateIdeaTypes l [] := by
  cases l <;> simp only [validateIdeaTypes] <;> first | (split_ifs <;> simp) | simp

theorem validateBusinessModels_append (l : Option (List String)) (e : List String) :
    validateBusinessModels l e = e ++ validateBusinessModels l [] := by
  cases l <;> simp only [validateBusinessModels] <;> first | (split_ifs <;> simp) | simp

theorem validateTargetMarket_append (t : Option String) (e : List String) :
    validateTargetMarket t e = e ++ validateTargetMarket t [] := by
  cases t <;> simp only [validateTargetMarket] <;> first | (split_ifs <;> simp) | simp

theorem validateExperienceLevel_append (x : Option String) (e : List String) :
    validateExperienceLevel x e = e ++ validateExperienceLevel x [] := by
  cases x <;> simp only [validateExperienceLevel] <;> first | (split_ifs <;> simp) | simp

theorem validateGeographicFocus_append (g : Option String) (e : List String) :
    validateGeographicFocus g e = e ++ validateGeographicFocus g [] := by
  cases g <;> simp only [validateGeographicFocus] <;> first | (split_ifs <;> simp) | simp

theorem validateAdditionalContext_append (a : Option String) (e : List String) :
    validateAdditionalContext a e = e ++ validateAdditionalContext a [] := by
  cases a <;> simp only [validateAdditionalContext] <;> first | (split_ifs <;> simp) | simp

theorem validateAgeOpt_append (a : Option ℚ) (e : List String) :
    (match a with | some x => validateAge x e | none => e) =
      e ++ (match a with | some x => validateAge x [] | none => []) := by
  cases a with
  | none => simp
  | some x => exact validateAge_append x e

theorem validateRiskOpt_append (r : Option String) (e : List String) :
    (match r with | some x => validateRiskAppetite x e | none => e) =
      e ++ (match r with | some x => validateRiskAppetite x [] | none => []) := by
  cases r with
  | none => simp
  | some x => exact validateRiskAppetite_append x e

/-- C6: the validator always returns a result (never throws), `isValid` holds
exactly when the error list is empty, the error list is the concatenation of
every sub-validator's own errors (all checks run; none stops the others), and
hence a request violating both the prompt and the count constraint gets a
message for each. -/
theorem validateGenerateIdeasRequest_accumulates (req : GenerateIdeasRequest)
    (opts : GenerateIdeasValidationOptions) :
    ((validateGenerateIdeasRequest req opts).isValid = true ↔
      (validateGenerateIdeasRequest req opts).errors = []) ∧
    ((validateGenerateIdeasRequest req opts).errors =
      validatePrompt req.prompt [] ++ validateCount req.count [] ++
      (match opts.age with | some a => validateAge a [] | none => []) ++
      validateCapital req.budgetRange opts.capital [] ++
      validateInterests req.industries opts.interests [] ++
      (match opts.riskAppetite with | some r => validateRiskAppetite r [] | none => []) ++
      validateIdeaTypes req.ideaTypes [] ++ validateBusinessModels req.businessModels [] ++
      validateTargetMarket req.targetMarket [] ++
      validateExperienceLevel req.experienceLevel [] ++
      validateGeographicFocus req.geographicFocus [] ++
      validateAdditionalContext req.additionalContext []) ∧
    (validatePrompt req.prompt [] ≠ [] → validateCount req.count [] ≠ [] →
      (validateGenerateIdeasRequest req opts).isValid = false ∧
      (∃ e ∈ (validateGenerateIdeasRequest req opts).errors, e ∈ validatePrompt req.prompt []) ∧
      (∃ e ∈ (validateGenerateIdeasRequest req opts).errors, e ∈ validateCount req.count [])) := by
  have hdec : (validateGenerateIdeasRequest req opts).errors =
      validatePrompt req.prompt [] ++ validateCount req.count [] ++
      (match opts.age with | some a => validateAge a [] | none => []) ++
      validateCapital req.budgetRange opts.capital [] ++
      validateInterests req.industries opts.interests [] ++
      (match opts.riskAppetite with | some r => validateRiskAppetite r [] | none => []) ++
      validateIdeaTypes req.ideaTypes [] ++ validateBusinessModels req.businessModels [] ++
      validateTargetMarket req.targetMarket [] ++
      validateExperienceLevel req.experienceLevel [] ++
      validateGeographicFocus req.geographicFocus [] ++
      validateAdditionalContext req.additionalContext [] := by
    simp only [validateGenerateIdeasRequest]
    rw [validateAdditionalContext_append, validateGeographicFocus_append,
      validateExperienceLevel_append, validateTargetMarket_append,
      validateBusinessModels_append, validateIdeaTypes_append, validateRiskOpt_append,
      validateInterests_append, validateCapital_append, validateAgeOpt_append,
      validateCount_append]
  have hvalid : (validateGenerateIdeasRequest req opts).isValid = true ↔
      (validateGenerateIdeasRequest req opts).errors = [] := by
    simp only [validateGenerateIdeasRequest, decide_eq_true_iff, List.length_eq_zero]
  refine ⟨hvalid, hdec, fun hp hc => ?_⟩
  have hne : (validateGenerateIdeasRequest req opts).errors ≠ [] := by
    rw [hdec]
    intro h
    rcases List.append_eq_nil.mp h with ⟨h1, -⟩
    rcases List.append_eq_nil.mp h1 with ⟨h2, -⟩
    rcases List.append_eq_nil.mp h2 with ⟨h3, -⟩
    rcases List.append_eq_nil.mp h3 with ⟨h4, -⟩
    rcases List.append_eq_nil.mp h4 with ⟨h5, -⟩
    rcases List.append_eq_nil.mp h5 with ⟨h6, -⟩
    rcases List.append_eq_nil.mp h6 with ⟨h7, -⟩
    rcases List.append_eq_nil.mp h7 with ⟨h8, -⟩
    rcases List.append_eq_nil.mp h8 with ⟨h9, -⟩
    rcases List.append_eq_nil.mp h9 with ⟨h10, -⟩
    exact hp (List.append_eq_nil.mp h10).1
  refine ⟨?_, ?_, ?_⟩
  · cases hv : (validateGenerateIdeasRequest req opts).isValid with
    | false => rfl
    | true => exact absurd (hvalid.mp hv) hne
  · obtain ⟨x, hx⟩ := List.exists_mem_of_ne_nil _ hp
    exact ⟨x, by rw [hdec]; simp only [List.mem_append]; tauto, hx⟩
  · obtain ⟨x, hx⟩ := List.exists_mem_of_ne_nil _ hc
    exact ⟨x, by rw [hdec]; simp only [List.mem_append]; tauto, hx⟩

/-- Witness for the validator-accumulation theorem: empty prompt together with
a zero count produce an invalid result carrying a message for each field. -/
theorem validateGenerateIdeasRequest_accumulates_witness :
    (validateGenerateIdeasRequest { prompt := some "", count := some 0 } {}).isValid = false ∧
    (∃ e ∈ (validateGenerateIdeasRequest { prompt := some "", count := some 0 } {}).errors,
      e ∈ validatePrompt (some "") []) ∧
    (∃ e ∈ (validateGenerateIdeasRequest { prompt := some "", count := some 0 } {}).errors,
      e ∈ validateCount (some 0) []) :=
  (validateGenerateIdeasRequest_accumulates { prompt := some "", count := some 0 } {}).2.2
    (by decide) (by decide)

/-- C8 counterexample: a body failing validation gets HTTP 400 whose body is a
bare `error` object with no `details` key; and a body that violates the full
validator (budget minimum above maximum) but passes the route's basic checks
is not rejected at all — the route answers 200. -/
theorem route_validation_details_missing :
    routeGenerateIdeasPOST (some (.obj [("prompt", .str "")])) (fun _ => none) =
      ⟨400, .obj [("error", .str "Missing or invalid required field: prompt")]⟩ ∧
    (routeGenerateIdeasPOST (some (.obj [("prompt", .str "")])) (fun _ => none)).body.field
      "details" = .undefined ∧
    (validateGenerateIdeasRequest
      { prompt := some "abc", budgetRange := some { min := some 5, max := some 1 } } {}).isValid
        = false ∧
    (routeGenerateIdeasPOST
      (some (.obj [("prompt", .str "abc"),
        ("budgetRange", .obj [("min", .num 5), ("max", .num 1)])]))
      (fun _ => some (.obj []))).status = 200 :=
  ⟨rfl, rfl, by decide, rfl⟩

/-- C8 amended: malformed JSON answers 400 `{error}`; every 400 the route
produces is a bare `{error}` object without a `details` list (only the basic
prompt/count/industries checks run — the full validator is never consulted); a
body passing the basic checks answers 200 with the service response when the
service returns, and the generic 500 `{error}` when it throws; a parsed `null`
body also lands in the generic 500. -/
theorem routeGenerateIdeasPOST_spec (gen : Json → Option Json) :
    (routeGenerateIdeasPOST none gen =
      ⟨400, .obj [("error", .str "Invalid JSON in request body")]⟩) ∧
    (∀ body : Json,
      (∃ msg, routeGenerateIdeasPOST (some body) gen = ⟨400, .obj [("error", .str msg)]⟩) ∨
      (∃ env, gen body = some env ∧ routeGenerateIdeasPOST (some body) gen = ⟨200, env⟩) ∨
      routeGenerateIdeasPOST (some body) gen =
        ⟨500, .obj [("error", .str "Internal server error while generating ideas")]⟩) ∧
    (∀ body : Json,
      (routeGenerateIdeasPOST (some body) gen).body.field "details" = .undefined ∨
      (∃ env, gen body = some env ∧ (routeGenerateIdeasPOST (some body) gen).body = env)) ∧
    (∀ fields : List (String × Json), (Json.obj fields).field "prompt" = .undefined →
      routeGenerateIdeasPOST (some (.obj fields)) gen =
        ⟨400, .obj [("error", .str "Missing or invalid required field: prompt")]⟩) := by
  refine ⟨rfl, ?_, ?_, ?_⟩
  · intro body
    cases body <;> simp only [routeGenerateIdeasPOST]
    case null => right; right; trivial
    all_goals
      split
      next => exact Or.inl ⟨_, rfl⟩
      next =>
        split
        next => exact Or.inl ⟨_, rfl⟩
        next =>
          split
          next => exact Or.inl ⟨_, rfl⟩
          next =>
            split
            next env hg => exact Or.inr (Or.inl ⟨env, hg, rfl⟩)
            next hg => exact Or.inr (Or.inr rfl)
  · intro body
    cases body <;> simp only [routeGenerateIdeasPOST]
    case null => left; trivial
    all_goals
      split
      next => exact Or.inl rfl
      next =>
        split
        next => exact Or.inl rfl
        next =>
          split
          next => exact Or.inl rfl
          next =>
            split
            next env hg => exact Or.inr ⟨env, hg, rfl⟩
            next hg => exact Or.inl rfl
  · intro fields hpf
    simp [routeGenerateIdeasPOST, hpf, Json.truthy]

/-- Witness for the amended route theorem: a body without a `prompt` key is
refused with the specific 400 error. -/
theorem routeGenerateIdeasPOST_spec_witness :
    routeGenerateIdeasPOST (some (.obj [("count", .num 3)])) (fun _ => none) =
      ⟨400, .obj [("error", .str "Missing or invalid required field: prompt")]⟩ :=
  (routeGenerateIdeasPOST_spec (fun _ => none)).2.2.2 [("count", .num 3)] rfl

/-! ## Prompt builder and validator round trip -/

/-- The prompt is the header, the nine conditional sections in source order,
and the fixed footer. -/
theorem businessIdeaPrompt_decomp (req : GenerateIdeasRequest) :
    businessIdeaPrompt req =
      businessIdeaPromptHeader req ++ industriesSection req ++ ideaTypesSection req ++
        businessModelsSection req ++ targetMarketSection req ++ budgetSection req ++
        experienceSection req ++ geographicSection req ++ additionalContextSection req ++
        businessIdeaPromptFooter := rfl

theorem strInfix_refl (mid : String) : mid.toList <:+: mid.toList := List.infix_rfl

theorem strInfix_appendR {mid : String} (x y : String) (h : mid.toList <:+: x.toList) :
    mid.toList <:+: (x ++ y).toList := by
  rw [strToList_append]
  obtain ⟨s, t, hst⟩ := h
  exact ⟨s, t ++ y.toList, by rw [← hst]; simp⟩

theorem strInfix_appendL {mid : String} (x y : String) (h : mid.toList <:+: y.toList) :
    mid.toList <:+: (x ++ y).toList := by
  rw [strToList_append]
  obtain ⟨s, t, hst⟩ := h
  exact ⟨x.toList ++ s, t, by rw [← hst]; simp⟩

/-- The validator's error list, decomposed into the sub-validators' own
errors. -/
theorem validator_errors_eq (req : GenerateIdeasRequest)
    (opts : GenerateIdeasValidationOptions) :
    (validateGenerateIdeasRequest req opts).errors =
      validatePrompt req.prompt [] ++ validateCount req.count [] ++
      (match opts.age with | some a => validateAge a [] | none => []) ++
      validateCapital req.budgetRange opts.capital [] ++
      validateInterests req.industries opts.interests [] ++
      (match opts.riskAppetite with | some r => validateRiskAppetite r [] | none => []) ++
      validateIdeaTypes req.ideaTypes [] ++ validateBusinessModels req.businessModels [] ++
      validateTargetMarket req.targetMarket [] ++
      validateExperienceLevel req.experienceLevel [] ++
      validateGeographicFocus req.geographicFocus [] ++
      validateAdditionalContext req.additionalContext [] := by
  simp only [validateGenerateIdeasRequest]
  rw [validateAdditionalContext_append, validateGeographicFocus_append,
    validateExperienceLevel_append, validateTargetMarket_append,
    validateBusinessModels_append, validateIdeaTypes_append, validateRiskOpt_append,
    validateInterests_append, validateCapital_append, validateAgeOpt_append,
    validateCount_append]

theorem validator_isValid_iff (req : GenerateIdeasRequest)
    (opts : GenerateIdeasValidationOptions) :
    (validateGenerateIdeasRequest req opts).isValid = true ↔
      (validateGenerateIdeasRequest req opts).errors = [] := by
  simp only [validateGenerateIdeasRequest, decide_eq_true_iff, List.length_eq_zero]

/-- On an accepted request every sub-validator was silent. -/
theorem validator_valid_parts (req : GenerateIdeasRequest)
    (opts : GenerateIdeasValidationOptions)
    (h : (validateGenerateIdeasRequest req opts).isValid = true) :
    validatePrompt req.prompt [] = [] ∧ validateCount req.count [] = [] ∧
    validateCapital req.budgetRange opts.capital [] = [] ∧
    validateInterests req.industries opts.interests [] = [] ∧
    validateIdeaTypes req.ideaTypes [] = [] ∧
    validateBusinessModels req.businessModels [] = [] ∧
    validateTargetMarket req.targetMarket [] = [] ∧
    validateExperienceLevel req.experienceLevel [] = [] ∧
    validateGeographicFocus req.geographicFocus [] = [] ∧
    validateAdditionalContext req.additionalContext [] = [] := by
  have he := (validator_isValid_iff req opts).mp h
  rw [validator_errors_eq] at he
  simp only [List.append_eq_nil] at he
  tauto

set_option maxRecDepth 40000 in
/-- C7 counterexample: `cex7req` is accepted by the validator and its budget
range carries both bounds (minimum 0, maximum 5000), yet the prompt renders
only the maximum — the two-bound BUDGET CONSTRAINT section is absent, because
the builder tests the bounds with `&&` truthiness and 0 is falsy. -/
theorem valid_zero_min_budget_not_rendered :
    (validateGenerateIdeasRequest cex7req {}).isValid = true ∧
    cex7req.budgetRange = some { min := some 0, max := some 5000, currency := some "USD" } ∧
    budgetSection cex7req = "\n\nMAXIMUM BUDGET: 5,000 USD" ∧
    businessIdeaPrompt cex7req =
      businessIdeaPromptHeader cex7req ++ "\n\nMAXIMUM BUDGET: 5,000 USD" ++
        businessIdeaPromptFooter ∧
    containsSub (businessIdeaPrompt cex7req) "BUDGET CONSTRAINT" = false ∧
    containsSub (businessIdeaPrompt cex7req) "MAXIMUM BUDGET" = true :=
  ⟨by decide, rfl, rfl, rfl, rfl, rfl⟩

/-- C7 amended: for every request the validator accepts, each present optional
field is rendered in the prompt as its labeled section, each absent field
contributes an empty section, and a present budget bound participates only
when it is nonzero — with both bounds present and nonzero the two-bound
BUDGET CONSTRAINT section appears, with both bounds. -/
theorem businessIdeaPrompt_renders_valid_fields (req : GenerateIdeasRequest)
    (hvalid : (validateGenerateIdeasRequest req {}).isValid = true) :
    (∀ l, req.industries = some l →
      ("\n\nINDUSTRIES TO FOCUS ON: " ++ String.intercalate ", " l).toList <:+:
        (businessIdeaPrompt req).toList) ∧
    (∀ l, req.ideaTypes = some l →
      ("\n\nPREFERRED IDEA TYPES: " ++ String.intercalate ", " l).toList <:+:
        (businessIdeaPrompt req).toList) ∧
    (∀ l, req.businessModels = some l →
      ("\n\nPREFERRED BUSINESS MODELS: " ++ String.intercalate ", " l).toList <:+:
        (businessIdeaPrompt req).toList) ∧
    (∀ t, req.targetMarket = some t →
      ("\n\nTARGET MARKET: " ++ t).toList <:+: (businessIdeaPrompt req).toList) ∧
    (∀ e, req.experienceLevel = some e →
      ("\n\nUSER EXPERIENCE LEVEL: " ++ e).toList <:+: (businessIdeaPrompt req).toList) ∧
    (∀ g, req.geographicFocus = some g →
      ("\n\nGEOGRAPHIC FOCUS: " ++ g).toList <:+: (businessIdeaPrompt req).toList) ∧
    (∀ a, req.additionalContext = some a →
      ("\n\nADDITIONAL CONTEXT: " ++ a).toList <:+: (businessIdeaPrompt req).toList) ∧
    (∀ br mn mx, req.budgetRange = some br → br.min = some mn → br.max = some mx →
      mn ≠ 0 → mx ≠ 0 →
      ("\n\nBUDGET CONSTRAINT: " ++ jsToLocaleString mn ++ " - " ++ jsToLocaleString mx ++
        " " ++ jsOrStrD br.currency "USD").toList <:+: (businessIdeaPrompt req).toList) ∧
    ((req.industries = none → industriesSection req = "") ∧
     (req.ideaTypes = none → ideaTypesSection req = "") ∧
     (req.businessModels = none → businessModelsSection req = "") ∧
     (req.targetMarket = none → targetMarketSection req = "") ∧
     (req.budgetRange = none → budgetSection req = "") ∧
     (req.experienceLevel = none → experienceSection req = "") ∧
     (req.geographicFocus = none → geographicSection req = "") ∧
     (req.additionalContext = none → additionalContextSection req = "")) ∧
    businessIdeaPrompt req =
      businessIdeaPromptHeader req ++ industriesSection req ++ ideaTypesSection req ++
        businessModelsSection req ++ targetMarketSection req ++ budgetSection req ++
        experienceSection req ++ geographicSection req ++ additionalContextSection req ++
        businessIdeaPromptFooter := by
  obtain ⟨-, -, -, hInt, hIT, hBM, hTM, hEL, hGF, hAC⟩ := validator_valid_parts req {} hvalid
  refine ⟨?_, ?_, ?_, ?_, ?_, ?_, ?_, ?_,
    ⟨fun h => by simp [industriesSection, h], fun h => by simp [ideaTypesSection, h],
     fun h => by simp [businessModelsSection, h], fun h => by simp [targetMarketSection, h],
     fun h => by simp [budgetSection, h], fun h => by simp [experienceSection, h],
     fun h => by simp [geographicSection, h], fun h => by simp [additionalContextSection, h]⟩,
    businessIdeaPrompt_decomp req⟩
  · intro l hl
    have hne : l ≠ [] := by
      intro hcon
      rw [hl, hcon] at hInt
      exact absurd hInt (by decide)
    have hsec : industriesSection req =
        "\n\nINDUSTRIES TO FOCUS ON: " ++ String.intercalate ", " l := by
      simp [industriesSection, hl, List.length_pos.mpr hne]
    rw [businessIdeaPrompt_decomp]
    apply strInfix_appendR
    apply strInfix_appendR
    apply strInfix_appendR
    apply strInfix_appendR
    apply strInfix_appendR
    apply strInfix_appendR
    apply strInfix_appendR
    apply strInfix_appendR
    apply strInfix_appendL
    rw [hsec]
  · intro l hl
    have hne : l ≠ [] := by
      intro hcon
      rw [hl, hcon] at hIT
      exact absurd hIT (by decide)
    have hsec : ideaTypesSection req =
        "\n\nPREFERRED IDEA TYPES: " ++ String.intercalate ", " l := by
      simp [ideaTypesSection, hl, List.length_pos.mpr hne]
    rw [businessIdeaPrompt_decomp]
    apply strInfix_appendR
    apply strInfix_appendR
    apply strInfix_appendR
    apply strInfix_appendR
    apply strInfix_appendR
    apply strInfix_appendR
    apply strInfix_appendR
    apply strInfix_appendL
    rw [hsec]
  · intro l hl
    have hne : l ≠ [] := by
      intro hcon
      rw [hl, hcon] at hBM
      exact absurd hBM (by decide)
    have hsec : businessModelsSection req =
        "\n\nPREFERRED BUSINESS MODELS: " ++ String.intercalate ", " l := by
      simp [businessModelsSection, hl, List.length_pos.mpr hne]
    rw [businessIdeaPrompt_decomp]
    apply strInfix_appendR
    apply strInfix_appendR
    apply strInfix_appendR
    apply strInfix_appendR
    apply strInfix_appendR
    apply strInfix_appendR
    apply strInfix_appendL
    rw [hsec]
  · intro t ht
    have hne : t ≠ "" := by
      intro hcon
      rw [ht, hcon] at hTM
      exact absurd hTM (by decide)
    have hsec : targetMarketSection req = "\n\nTARGET MARKET: " ++ t := by
      simp [targetMarketSection, ht, hne]
    rw [businessIdeaPrompt_decomp]
    apply strInfix_appendR
    apply strInfix_appendR
    apply strInfix_appendR
    apply strInfix_appendR
    apply strInfix_appendR
    apply strInfix_appendL
    rw [hsec]
  · intro e hel
    have hne : e ≠ "" := by
      intro hcon
      rw [hel, hcon] at hEL
      exact absurd hEL (by decide)
    rw [businessIdeaPrompt_decomp]
    apply strInfix_appendR
    apply strInfix_appendR
    apply strInfix_appendR
    apply strInfix_appendL
    simp only [experienceSection, hel]
    rw [if_neg hne]
    exact strInfix_appendR _ _ List.infix_rfl
  · intro g hg
    have hne : g ≠ "" := by
      intro hcon
      rw [hg, hcon] at hGF
      exact absurd hGF (by decide)
    have hsec : geographicSection req = "\n\nGEOGRAPHIC FOCUS: " ++ g := by
      simp [geographicSection, hg, hne]
    rw [businessIdeaPrompt_decomp]
    apply strInfix_appendR
    apply strInfix_appendR
    apply strInfix_appendL
    rw [hsec]
  · intro a ha
    have hne : a ≠ "" := by
      intro hcon
      rw [ha, hcon] at hAC
      exact absurd hAC (by decide)
    have hsec : additionalContextSection req = "\n\nADDITIONAL CONTEXT: " ++ a := by
      simp [additionalContextSection, ha, hne]
    rw [businessIdeaPrompt_decomp]
    apply strInfix_appendR
    apply strInfix_appendL
    rw [hsec]
  · intro br mn mx hbr hmn hmx hmn0 hmx0
    have hsec : budgetSection req =
        "\n\nBUDGET CONSTRAINT: " ++ jsToLocaleString mn ++ " - " ++ jsToLocaleString mx ++
          " " ++ jsOrStrD br.currency "USD" := by
      simp only [budgetSection, hbr, hmn, hmx]
      rw [if_pos hmn0, if_pos hmx0]
    rw [businessIdeaPrompt_decomp]
    apply strInfix_appendR
    apply strInfix_appendR
    apply strInfix_appendR
    apply strInfix_appendR
    apply strInfix_appendL
    rw [hsec]

/-- Witness for the prompt-rendering theorem: the all-sections request `wreq`
renders its industries and its two nonzero budget bounds. -/
theorem businessIdeaPrompt_renders_valid_fields_witness :
    ("\n\nINDUSTRIES TO FOCUS ON: " ++ String.intercalate ", " ["Food tech"]).toList <:+:
      (businessIdeaPrompt wreq).toList ∧
    ("\n\nBUDGET CONSTRAINT: " ++ jsToLocaleString 100 ++ " - " ++ jsToLocaleString 5000 ++
      " " ++ jsOrStrD (some "USD") "USD").toList <:+: (businessIdeaPrompt wreq).toList :=
  ⟨(businessIdeaPrompt_renders_valid_fields wreq (by decide)).1 ["Food tech"] rfl,
   (businessIdeaPrompt_renders_valid_fields wreq (by decide)).2.2.2.2.2.2.2.1
     { min := some 100, max := some 5000, currency := some "USD" } 100 5000 rfl rfl rfl
     (by decide) (by decide)⟩
